import Mathlib

/-!
Shallow embedding of the CatLife deterministic life-course simulation engine:
the breed health registry (`src/lib/catlife/breed-health-data.ts`), the
month-by-month trajectory simulator, health-status classifier, alert and
summary generators (`src/app/catlife/page.tsx`), and the enhancement layer
(`simulation-enhancer`).

Conventions of the embedding:
* JavaScript `number` is modelled by `ℚ` (weights, scores, onset ages) or by
  `ℕ` where the program only ever holds integers (month counters, years).
* TypeScript `T | null` and optional fields are modelled by `Option T`.
* `Math.random()` is modelled by an explicit stream `rand : ℕ → ℚ` giving the
  sampled value for each simulated month; theorems quantify over the stream.
* JavaScript truthiness on strings (`s ||`, `!s`) treats the empty string as
  false; the helper `jsOrString` reproduces this, while `?? d` is `Option.getD`.
* `Array.prototype.sort` (stable, ascending by `ageMonths`) is modelled by a
  stable insertion sort `sortByAge`.
* Rational literals print differently from JS decimals (`1/2` vs `0.5`); this
  affects only the text of generated note/alert strings, not any control flow.
-/

namespace CatLife

/-- JS `Math.round(x * 100) / 100` (round half toward +∞), used for the
2-decimal weight rounding in the simulator. -/
def jsRound2 (x : ℚ) : ℚ := ((⌊x * 100 + 1/2⌋ : ℤ) : ℚ) / 100

/-- JS `Math.round(x)` (round half toward +∞). -/
def jsRoundInt (x : ℚ) : ℤ := ⌊x + 1/2⌋

/-- JS `s || dflt` for a nullable string: `null`, `undefined` and `""` are falsy. -/
def jsOrString (s : Option String) (dflt : String) : String :=
  match s with
  | none => dflt
  | some s => if s = "" then dflt else s

/-- JS `toLowerCase()` (the data is ASCII, so ASCII lowering suffices),
implemented over the character list so that it reduces in the kernel. -/
def jsToLower (s : String) : String := String.mk (s.data.map Char.toLower)

/-- JS `trim()`: strip leading and trailing whitespace. -/
def jsTrim (s : String) : String :=
  String.mk (((s.data.dropWhile Char.isWhitespace).reverse.dropWhile
    Char.isWhitespace).reverse)

/-- JS `substring(0, n)`. -/
def jsSubstrTo (s : String) (n : ℕ) : String := String.mk (s.data.take n)

/-- Substring search on character lists, for `jsIncludes`. -/
def containsSub (sub : List Char) : List Char → Bool
  | [] => sub.isEmpty
  | c :: t => sub.isPrefixOf (c :: t) || containsSub sub t

/-- JS `String.prototype.includes` (substring containment). -/
def jsIncludes (s sub : String) : Bool := containsSub sub.data s.data

-- ============================================
-- Data model (types/catlife.ts and breed-health-data.ts)
-- ============================================

inductive HealthStatus
  | thriving | ok | risky | unhealthy
deriving DecidableEq

inductive AlertSeverity
  | info | warning | critical
deriving DecidableEq

inductive RiskLevel
  | low | moderate | high
deriving DecidableEq

inductive SizeCategory
  | small | medium | large
deriving DecidableEq

inductive Sex
  | male | female | unknown
deriving DecidableEq

inductive BodyCondition
  | underweight | ideal | overweight | unknown
deriving DecidableEq

inductive IndoorOutdoor
  | indoor | outdoor | mixed
deriving DecidableEq

inductive WeightSource
  | user_estimate | vet_recent | unknown
deriving DecidableEq

inductive FoodType
  | dry | wet | mixed | raw | other
deriving DecidableEq

inductive LitterCleaningFrequency
  | daily | every_2_days | weekly | unknown
deriving DecidableEq

/-- An inclusive `{min, max}` pair of JS numbers. -/
structure MinMax where
  min : ℚ
  max : ℚ
deriving DecidableEq

structure HealthRisk where
  condition : String
  riskLevel : RiskLevel
  typicalOnsetYears : ℚ
  monitoringAdvice : String
  symptoms : Option (List String)
deriving DecidableEq

structure ScreeningSchedule where
  ageYears : ℚ
  screenings : List String
  reason : String
deriving DecidableEq

structure AgeSpecificAdvice where
  ageRange : ℚ × ℚ
  advice : List String
  focus : String
deriving DecidableEq

structure BreedHealthProfile where
  breed : String
  aliases : List String
  sizeCategory : SizeCategory
  lifeExpectancy : MinMax
  idealWeight : MinMax
  healthRisks : List HealthRisk
  screeningSchedule : List ScreeningSchedule
  ageSpecificAdvice : List AgeSpecificAdvice
  generalNotes : String
deriving DecidableEq

structure CatProfile where
  id : Option String := none
  name : Option String
  ageYears : Option ℕ
  ageMonths : Option ℕ
  sex : Option Sex
  neutered : Option Bool
  breed : Option String
  indoorOutdoor : Option IndoorOutdoor
  weightKg : Option ℚ
  weightSource : Option WeightSource
  bodyCondition : Option BodyCondition
  knownConditions : List String
  photoUrl : Option String := none
  avatarUrl : Option String := none
deriving DecidableEq

structure CareRoutine where
  foodType : Option FoodType
  foodAmountOzPerDay : Option ℚ
  feedingFrequency : Option ℕ
  treatsPerDay : Option ℚ
  playMinutesPerDay : Option ℚ
  vetVisitsPerYear : Option ℚ
  litterCleaningFrequency : Option LitterCleaningFrequency
deriving DecidableEq

structure SimulationConfig where
  catProfile : CatProfile
  careRoutine : CareRoutine
  startAgeMonths : ℕ
  endAgeMonths : ℕ
deriving DecidableEq

structure SimulationPoint where
  ageMonths : ℕ
  weightKgEstimate : ℚ
  healthStatus : HealthStatus
  notes : String
deriving DecidableEq

structure SimulationAlert where
  id : String
  ageMonths : ℚ
  severity : AlertSeverity
  message : String
  recommendation : String
deriving DecidableEq

structure SimulationResult where
  points : List SimulationPoint
  alerts : List SimulationAlert
  summary : String
  recommendations : List String
deriving DecidableEq

inductive HealthTrend
  | improving | stable | declining
deriving DecidableEq

structure HealthTrajectory where
  trend : HealthTrend
  projectedStatusAtYear10 : HealthStatus
  projectedStatusAtYear15 : HealthStatus
  riskFactors : List String
  positiveFactors : List String
  averageHealthScore : ℚ
deriving DecidableEq

inductive NotePriority
  | high | medium | low
deriving DecidableEq

structure EnhancedMilestoneNote where
  ageYears : ℕ
  personalizedNote : String
  breedSpecificAlerts : List String
  ageAppropriateAdvice : List String
  upcomingMilestones : List String
  trajectoryInsight : String
  priority : NotePriority
deriving DecidableEq

structure EnhancedSimulationPoint extends SimulationPoint where
  enhancedNote : Option EnhancedMilestoneNote := none
  breedHealthRisks : Option (List HealthRisk) := none
deriving DecidableEq

inductive RecommendationCategory
  | screening | diet | activity | monitoring | comfort
deriving DecidableEq

structure ProgressiveRecommendation where
  ageYears : ℕ
  category : RecommendationCategory
  recommendation : String
  reason : String
  priority : NotePriority
deriving DecidableEq

structure EnhancedSimulationResult extends SimulationResult where
  enhancedPoints : List EnhancedSimulationPoint
  trajectory : HealthTrajectory
  breedProfile : Option BreedHealthProfile
  progressiveTimeline : List ProgressiveRecommendation
  isEnhanced : Bool
deriving DecidableEq

-- ============================================
-- Breed Health Registry (breed-health-data.ts)
-- ============================================

def maineCoon : BreedHealthProfile := {
  breed := "Maine Coon"
  aliases := ["maine coon", "mainecoon", "maine-coon"]
  sizeCategory := SizeCategory.large
  lifeExpectancy := { min := 12, max := 15 }
  idealWeight := { min := 5.5, max := 10 }
  healthRisks := [{ condition := "Hypertrophic Cardiomyopathy (HCM)", riskLevel := RiskLevel.high, typicalOnsetYears := 4, monitoringAdvice := "Annual echocardiograms starting at age 3-4. Watch for lethargy, rapid breathing.", symptoms := some ["Lethargy", "Rapid breathing", "Open-mouth breathing", "Decreased appetite"] },
    { condition := "Hip Dysplasia", riskLevel := RiskLevel.moderate, typicalOnsetYears := 2, monitoringAdvice := "Watch for difficulty jumping or climbing. X-rays if limping develops.", symptoms := some ["Difficulty jumping", "Limping", "Reluctance to climb stairs"] },
    { condition := "Spinal Muscular Atrophy (SMA)", riskLevel := RiskLevel.low, typicalOnsetYears := 0.5, monitoringAdvice := "Genetic testing available. Usually apparent in kittens.", symptoms := some ["Muscle weakness", "Abnormal gait", "Tremors"] },
    { condition := "Polycystic Kidney Disease (PKD)", riskLevel := RiskLevel.moderate, typicalOnsetYears := 7, monitoringAdvice := "Ultrasound screening after age 5. Monitor water intake.", symptoms := some ["Increased thirst", "Weight loss", "Lethargy"] }]
  screeningSchedule := [{ ageYears := 1, screenings := ["Baseline bloodwork", "Dental exam"], reason := "Establish baseline health markers" },
    { ageYears := 3, screenings := ["Echocardiogram", "Heart murmur check"], reason := "Early HCM detection - critical for Maine Coons" },
    { ageYears := 5, screenings := ["Echocardiogram", "Kidney ultrasound", "Full bloodwork"], reason := "Monitor heart and early kidney screening" },
    { ageYears := 7, screenings := ["Echocardiogram", "Kidney function panel", "Thyroid check"], reason := "Senior screening begins" },
    { ageYears := 10, screenings := ["Bi-annual echocardiogram", "Complete senior panel", "Blood pressure"], reason := "Intensive monitoring for geriatric care" }]
  ageSpecificAdvice := [{ ageRange := (0, 2), focus := "Growth & Development", advice := ["Support healthy bone development with quality nutrition", "Monitor growth rate - Maine Coons grow until age 4-5", "Establish jumping-friendly furniture arrangements"] },
    { ageRange := (2, 5), focus := "Heart Health Baseline", advice := ["Schedule first echocardiogram by age 3-4", "Learn to monitor resting respiratory rate at home", "Maintain healthy weight to reduce heart strain"] },
    { ageRange := (5, 8), focus := "Preventive Monitoring", advice := ["Annual echocardiograms are essential", "Begin kidney function monitoring", "Watch for mobility changes - hip issues may emerge"] },
    { ageRange := (8, 12), focus := "Senior Care", advice := ["Bi-annual vet visits recommended", "Consider joint supplements", "Monitor for signs of heart disease progression"] },
    { ageRange := (12, 20), focus := "Quality of Life", advice := ["Focus on comfort and pain management", "Easy access to food, water, and litter", "Regular heart monitoring continues"] }]
  generalNotes := "Maine Coons are gentle giants prone to heart disease. Regular cardiac screening is essential. They continue growing until age 4-5." }

def ragdoll : BreedHealthProfile := {
  breed := "Ragdoll"
  aliases := ["ragdoll", "rag doll", "rag-doll"]
  sizeCategory := SizeCategory.large
  lifeExpectancy := { min := 12, max := 17 }
  idealWeight := { min := 4.5, max := 9 }
  healthRisks := [{ condition := "Hypertrophic Cardiomyopathy (HCM)", riskLevel := RiskLevel.high, typicalOnsetYears := 3, monitoringAdvice := "Annual echocardiograms starting at age 2-3. Genetic test available.", symptoms := some ["Lethargy", "Rapid breathing", "Fainting"] },
    { condition := "Bladder Stones", riskLevel := RiskLevel.moderate, typicalOnsetYears := 4, monitoringAdvice := "Ensure adequate water intake. Watch for urinary difficulties.", symptoms := some ["Straining to urinate", "Blood in urine", "Frequent urination attempts"] },
    { condition := "Feline Infectious Peritonitis (FIP)", riskLevel := RiskLevel.moderate, typicalOnsetYears := 1, monitoringAdvice := "More susceptible than average. Watch for fever, weight loss.", symptoms := some ["Fever", "Weight loss", "Abdominal swelling"] }]
  screeningSchedule := [{ ageYears := 1, screenings := ["Baseline bloodwork", "Urinalysis"], reason := "Establish baseline" },
    { ageYears := 2, screenings := ["Echocardiogram", "Genetic HCM test"], reason := "Early cardiac screening" },
    { ageYears := 5, screenings := ["Echocardiogram", "Urinalysis", "Kidney panel"], reason := "Regular monitoring" },
    { ageYears := 8, screenings := ["Full senior panel", "Echocardiogram", "Blood pressure"], reason := "Senior screening" }]
  ageSpecificAdvice := [{ ageRange := (0, 2), focus := "Growth & Immunity", advice := ["Complete vaccination schedule is crucial", "Monitor for FIP symptoms", "Support slow, healthy growth"] },
    { ageRange := (2, 5), focus := "Heart & Urinary Health", advice := ["First echocardiogram by age 2-3", "Encourage water intake for bladder health", "Consider wet food to increase hydration"] },
    { ageRange := (5, 10), focus := "Preventive Care", advice := ["Annual heart screening", "Regular urinalysis for bladder health", "Maintain healthy weight"] },
    { ageRange := (10, 20), focus := "Senior Support", advice := ["Bi-annual checkups", "Joint support as needed", "Continue heart monitoring"] }]
  generalNotes := "Ragdolls are docile and often don't show pain. Regular health checks are important as they may hide symptoms." }

def norwegianForest : BreedHealthProfile := {
  breed := "Norwegian Forest Cat"
  aliases := ["norwegian forest", "norwegian forest cat", "wegie", "norsk skogkatt"]
  sizeCategory := SizeCategory.large
  lifeExpectancy := { min := 12, max := 16 }
  idealWeight := { min := 4.5, max := 9 }
  healthRisks := [{ condition := "Glycogen Storage Disease IV (GSD IV)", riskLevel := RiskLevel.moderate, typicalOnsetYears := 0.5, monitoringAdvice := "Genetic test available. Fatal if present - usually shows in kittens.", symptoms := some ["Muscle weakness", "Fever", "Tremors"] },
    { condition := "Hypertrophic Cardiomyopathy (HCM)", riskLevel := RiskLevel.moderate, typicalOnsetYears := 5, monitoringAdvice := "Annual heart checks after age 4.", symptoms := some ["Lethargy", "Breathing difficulties"] },
    { condition := "Hip Dysplasia", riskLevel := RiskLevel.moderate, typicalOnsetYears := 3, monitoringAdvice := "Monitor mobility, especially as they age.", symptoms := some ["Difficulty jumping", "Stiffness"] }]
  screeningSchedule := [{ ageYears := 1, screenings := ["GSD IV genetic test", "Baseline bloodwork"], reason := "Rule out genetic disease" },
    { ageYears := 4, screenings := ["Echocardiogram", "Hip evaluation"], reason := "Begin cardiac monitoring" },
    { ageYears := 7, screenings := ["Full panel", "Heart check", "Joint assessment"], reason := "Senior preparation" }]
  ageSpecificAdvice := [{ ageRange := (0, 2), focus := "Genetic Screening", advice := ["GSD IV test if not done by breeder", "Support healthy coat with omega fatty acids", "Establish grooming routine for long coat"] },
    { ageRange := (2, 6), focus := "Coat & Joint Care", advice := ["Regular grooming to prevent mats", "Monitor activity levels for joint health", "Begin cardiac screening at 4"] },
    { ageRange := (6, 12), focus := "Senior Transition", advice := ["Joint supplements may help", "Continue regular heart checks", "Watch weight as activity decreases"] },
    { ageRange := (12, 20), focus := "Comfort Care", advice := ["Easy access accommodations", "Regular vet visits", "Pain management if needed"] }]
  generalNotes := "Hardy breed adapted to cold climates. Requires regular grooming. GSD IV is a serious genetic concern." }

def britishShorthair : BreedHealthProfile := {
  breed := "British Shorthair"
  aliases := ["british shorthair", "british blue", "bsh"]
  sizeCategory := SizeCategory.large
  lifeExpectancy := { min := 12, max := 17 }
  idealWeight := { min := 4, max := 8 }
  healthRisks := [{ condition := "Hypertrophic Cardiomyopathy (HCM)", riskLevel := RiskLevel.high, typicalOnsetYears := 4, monitoringAdvice := "Annual echocardiograms starting at age 3.", symptoms := some ["Lethargy", "Labored breathing", "Weakness in hind legs"] },
    { condition := "Obesity", riskLevel := RiskLevel.high, typicalOnsetYears := 2, monitoringAdvice := "Strict portion control essential. This breed gains weight easily.", symptoms := some ["Visible weight gain", "Decreased activity", "Difficulty grooming"] },
    { condition := "Polycystic Kidney Disease (PKD)", riskLevel := RiskLevel.moderate, typicalOnsetYears := 7, monitoringAdvice := "Ultrasound screening after age 5.", symptoms := some ["Increased thirst", "Weight loss"] }]
  screeningSchedule := [{ ageYears := 1, screenings := ["Weight assessment", "Baseline bloodwork"], reason := "Establish healthy baseline" },
    { ageYears := 3, screenings := ["Echocardiogram", "Body condition score"], reason := "Heart and weight monitoring" },
    { ageYears := 6, screenings := ["Kidney ultrasound", "Heart check", "Diabetes screening"], reason := "Preventive screening" },
    { ageYears := 9, screenings := ["Full senior panel", "Cardiac assessment"], reason := "Senior care" }]
  ageSpecificAdvice := [{ ageRange := (0, 2), focus := "Weight Management Foundation", advice := ["Establish portion-controlled feeding early", "Encourage active play despite calm nature", "Avoid free-feeding"] },
    { ageRange := (2, 5), focus := "Heart & Weight", advice := ["First echocardiogram by age 3", "Monitor weight monthly", "Interactive play sessions daily"] },
    { ageRange := (5, 10), focus := "Metabolic Health", advice := ["Watch for diabetes signs", "Annual heart screening", "Kidney monitoring begins"] },
    { ageRange := (10, 20), focus := "Senior Weight & Heart", advice := ["Careful calorie management", "Regular cardiac checks", "Joint support for heavier cats"] }]
  generalNotes := "Calm, easy-going breed prone to obesity. Requires strict diet management and regular exercise encouragement." }

def savannah : BreedHealthProfile := {
  breed := "Savannah"
  aliases := ["savannah", "savannah cat"]
  sizeCategory := SizeCategory.large
  lifeExpectancy := { min := 12, max := 20 }
  idealWeight := { min := 5.5, max := 11 }
  healthRisks := [{ condition := "Hypertrophic Cardiomyopathy (HCM)", riskLevel := RiskLevel.moderate, typicalOnsetYears := 5, monitoringAdvice := "Annual heart screening after age 4.", symptoms := some ["Lethargy", "Breathing issues"] },
    { condition := "Hybrid Male Sterility", riskLevel := RiskLevel.low, typicalOnsetYears := 0, monitoringAdvice := "Early generation males (F1-F4) are typically sterile.", symptoms := some [] }]
  screeningSchedule := [{ ageYears := 2, screenings := ["Baseline bloodwork", "Heart check"], reason := "Establish baseline" },
    { ageYears := 5, screenings := ["Echocardiogram", "Full panel"], reason := "Cardiac monitoring" },
    { ageYears := 8, screenings := ["Senior screening", "Heart assessment"], reason := "Senior preparation" }]
  ageSpecificAdvice := [{ ageRange := (0, 3), focus := "High Energy Management", advice := ["Provide extensive enrichment and space", "High-protein diet essential", "Socialize well during this period"] },
    { ageRange := (3, 8), focus := "Active Adult Care", advice := ["Maintain high activity levels", "Regular heart monitoring", "Mental stimulation crucial"] },
    { ageRange := (8, 15), focus := "Mature Care", advice := ["May still be very active", "Regular health checks", "Watch for any slowing down"] },
    { ageRange := (15, 20), focus := "Senior Years", advice := ["Adjust activity to comfort", "Regular monitoring", "Comfort-focused care"] }]
  generalNotes := "Exotic hybrid breed requiring experienced owners. Very active and intelligent. Long lifespan if well cared for." }

def persian : BreedHealthProfile := {
  breed := "Persian"
  aliases := ["persian", "persian cat", "longhair"]
  sizeCategory := SizeCategory.medium
  lifeExpectancy := { min := 12, max := 17 }
  idealWeight := { min := 3.5, max := 5.5 }
  healthRisks := [{ condition := "Polycystic Kidney Disease (PKD)", riskLevel := RiskLevel.high, typicalOnsetYears := 7, monitoringAdvice := "Genetic test available. Ultrasound screening by age 5.", symptoms := some ["Increased thirst", "Increased urination", "Weight loss", "Lethargy"] },
    { condition := "Brachycephalic Airway Syndrome", riskLevel := RiskLevel.high, typicalOnsetYears := 0, monitoringAdvice := "Present from birth due to flat face. Avoid heat and stress.", symptoms := some ["Noisy breathing", "Snoring", "Exercise intolerance"] },
    { condition := "Progressive Retinal Atrophy (PRA)", riskLevel := RiskLevel.moderate, typicalOnsetYears := 4, monitoringAdvice := "Eye exams yearly. Watch for night blindness.", symptoms := some ["Night blindness", "Dilated pupils", "Bumping into objects"] },
    { condition := "Hypertrophic Cardiomyopathy (HCM)", riskLevel := RiskLevel.moderate, typicalOnsetYears := 5, monitoringAdvice := "Annual heart screening after age 4.", symptoms := some ["Lethargy", "Breathing difficulties"] }]
  screeningSchedule := [{ ageYears := 1, screenings := ["PKD genetic test", "Eye exam", "Baseline bloodwork"], reason := "Early genetic screening" },
    { ageYears := 3, screenings := ["Eye exam", "Heart check", "Kidney ultrasound"], reason := "Preventive monitoring" },
    { ageYears := 5, screenings := ["Kidney ultrasound", "Full bloodwork", "Echocardiogram"], reason := "PKD typically shows by now" },
    { ageYears := 8, screenings := ["Complete senior panel", "Kidney function", "Eye exam"], reason := "Senior monitoring" }]
  ageSpecificAdvice := [{ ageRange := (0, 2), focus := "Breathing & Eye Care", advice := ["Keep face clean and dry", "Monitor breathing in warm weather", "Daily eye cleaning routine", "PKD genetic test if not done"] },
    { ageRange := (2, 5), focus := "Kidney & Vision Monitoring", advice := ["Begin kidney screening by age 3", "Annual eye exams essential", "Maintain grooming routine for coat"] },
    { ageRange := (5, 10), focus := "Kidney Health Focus", advice := ["Regular kidney function tests", "Consider renal-support diet if needed", "Keep stress levels low", "Monitor water intake"] },
    { ageRange := (10, 20), focus := "Supportive Care", advice := ["Kidney management is key", "Climate control important", "Regular gentle grooming", "Easy access to resources"] }]
  generalNotes := "Beautiful but high-maintenance breed. Flat face requires special care. PKD is a major concern - genetic testing highly recommended." }

def bengal : BreedHealthProfile := {
  breed := "Bengal"
  aliases := ["bengal", "bengal cat"]
  sizeCategory := SizeCategory.medium
  lifeExpectancy := { min := 12, max := 16 }
  idealWeight := { min := 4, max := 7 }
  healthRisks := [{ condition := "Pyruvate Kinase Deficiency (PK Deficiency)", riskLevel := RiskLevel.moderate, typicalOnsetYears := 2, monitoringAdvice := "Genetic test available. Causes anemia.", symptoms := some ["Lethargy", "Pale gums", "Weakness"] },
    { condition := "Hypertrophic Cardiomyopathy (HCM)", riskLevel := RiskLevel.moderate, typicalOnsetYears := 4, monitoringAdvice := "Annual echocardiograms after age 3.", symptoms := some ["Lethargy", "Rapid breathing"] },
    { condition := "Progressive Retinal Atrophy (PRA)", riskLevel := RiskLevel.moderate, typicalOnsetYears := 3, monitoringAdvice := "Genetic test available. Annual eye exams.", symptoms := some ["Night blindness", "Vision changes"] },
    { condition := "Flat Chested Kitten Syndrome", riskLevel := RiskLevel.low, typicalOnsetYears := 0, monitoringAdvice := "Apparent at birth. Reputable breeders screen for this.", symptoms := some ["Flattened chest", "Breathing difficulties in kittens"] }]
  screeningSchedule := [{ ageYears := 1, screenings := ["PK deficiency test", "PRA genetic test", "Baseline bloodwork"], reason := "Genetic screening" },
    { ageYears := 3, screenings := ["Echocardiogram", "Eye exam"], reason := "Begin cardiac monitoring" },
    { ageYears := 6, screenings := ["Heart check", "Full bloodwork", "Eye exam"], reason := "Ongoing monitoring" },
    { ageYears := 10, screenings := ["Senior panel", "Cardiac assessment"], reason := "Senior care" }]
  ageSpecificAdvice := [{ ageRange := (0, 2), focus := "Energy & Genetics", advice := ["Genetic testing for PK and PRA", "Provide extensive exercise opportunities", "Mental stimulation is crucial", "High-protein diet supports activity level"] },
    { ageRange := (2, 6), focus := "Heart & Activity", advice := ["First echocardiogram by age 3", "Maintain high activity lifestyle", "Regular eye exams", "Monitor energy levels for anemia signs"] },
    { ageRange := (6, 12), focus := "Maintaining Vitality", advice := ["Continue active lifestyle", "Annual heart screening", "Watch for vision changes", "Regular health checks"] },
    { ageRange := (12, 20), focus := "Active Senior", advice := ["Bengals often remain active into old age", "Adjust play to comfort level", "Regular monitoring", "Joint support as needed"] }]
  generalNotes := "Extremely active and intelligent breed. Requires lots of stimulation. Genetic testing recommended for PK deficiency and PRA." }

def siamese : BreedHealthProfile := {
  breed := "Siamese"
  aliases := ["siamese", "siamese cat", "meezer"]
  sizeCategory := SizeCategory.medium
  lifeExpectancy := { min := 12, max := 20 }
  idealWeight := { min := 3.5, max := 5.5 }
  healthRisks := [{ condition := "Amyloidosis", riskLevel := RiskLevel.high, typicalOnsetYears := 7, monitoringAdvice := "Liver form common in Siamese. Regular bloodwork to monitor liver function.", symptoms := some ["Lethargy", "Weight loss", "Jaundice", "Loss of appetite"] },
    { condition := "Dental Disease", riskLevel := RiskLevel.high, typicalOnsetYears := 2, monitoringAdvice := "Annual dental exams. Consider dental diet or regular brushing.", symptoms := some ["Bad breath", "Difficulty eating", "Drooling", "Red gums"] },
    { condition := "Respiratory Issues", riskLevel := RiskLevel.moderate, typicalOnsetYears := 0, monitoringAdvice := "More prone to asthma and bronchial disease.", symptoms := some ["Coughing", "Wheezing", "Labored breathing"] },
    { condition := "Progressive Retinal Atrophy (PRA)", riskLevel := RiskLevel.moderate, typicalOnsetYears := 3, monitoringAdvice := "Annual eye exams recommended.", symptoms := some ["Night blindness", "Dilated pupils"] }]
  screeningSchedule := [{ ageYears := 1, screenings := ["Dental exam", "Baseline bloodwork", "Eye exam"], reason := "Establish baseline" },
    { ageYears := 3, screenings := ["Dental cleaning if needed", "Liver panel", "Eye exam"], reason := "Early monitoring" },
    { ageYears := 6, screenings := ["Full bloodwork including liver", "Dental assessment", "Respiratory check"], reason := "Amyloidosis monitoring begins" },
    { ageYears := 9, screenings := ["Senior panel with liver focus", "Dental care", "Full exam"], reason := "Senior care" }]
  ageSpecificAdvice := [{ ageRange := (0, 2), focus := "Dental Foundation", advice := ["Start dental care routine early", "Consider dental-friendly diet", "Socialize well - Siamese are very social", "Monitor for respiratory issues"] },
    { ageRange := (2, 6), focus := "Dental & Liver Health", advice := ["Regular dental checkups essential", "Watch for signs of liver issues", "Keep stress low - they're sensitive", "Mental stimulation crucial"] },
    { ageRange := (6, 12), focus := "Amyloidosis Watch", advice := ["Liver function monitoring important", "Continue dental care", "Watch for appetite changes", "Regular comprehensive bloodwork"] },
    { ageRange := (12, 20), focus := "Long-Lived Senior", advice := ["Siamese often live into late teens", "Monitor liver and kidney function", "Dental health remains important", "Lots of companionship needed"] }]
  generalNotes := "Vocal, social breed that bonds deeply. Prone to dental issues and liver amyloidosis. Often lives 15-20 years with good care." }

def abyssinian : BreedHealthProfile := {
  breed := "Abyssinian"
  aliases := ["abyssinian", "aby", "abyssinian cat"]
  sizeCategory := SizeCategory.medium
  lifeExpectancy := { min := 12, max := 15 }
  idealWeight := { min := 3, max := 5 }
  healthRisks := [{ condition := "Renal Amyloidosis", riskLevel := RiskLevel.high, typicalOnsetYears := 5, monitoringAdvice := "Regular kidney function tests starting at age 4.", symptoms := some ["Increased thirst", "Weight loss", "Lethargy"] },
    { condition := "Pyruvate Kinase Deficiency (PK Deficiency)", riskLevel := RiskLevel.moderate, typicalOnsetYears := 2, monitoringAdvice := "Genetic test available.", symptoms := some ["Anemia", "Lethargy", "Pale gums"] },
    { condition := "Progressive Retinal Atrophy (PRA)", riskLevel := RiskLevel.moderate, typicalOnsetYears := 3, monitoringAdvice := "Genetic test available. Annual eye exams.", symptoms := some ["Night blindness", "Vision loss"] },
    { condition := "Patellar Luxation", riskLevel := RiskLevel.moderate, typicalOnsetYears := 2, monitoringAdvice := "Watch for limping or skipping gait.", symptoms := some ["Limping", "Holding leg up", "Skipping gait"] }]
  screeningSchedule := [{ ageYears := 1, screenings := ["PK deficiency test", "PRA test", "Baseline bloodwork"], reason := "Genetic screening" },
    { ageYears := 4, screenings := ["Kidney function panel", "Eye exam", "Joint assessment"], reason := "Begin amyloidosis monitoring" },
    { ageYears := 7, screenings := ["Full bloodwork", "Kidney ultrasound", "Heart check"], reason := "Senior preparation" },
    { ageYears := 10, screenings := ["Comprehensive senior panel", "Kidney monitoring"], reason := "Senior care" }]
  ageSpecificAdvice := [{ ageRange := (0, 2), focus := "Genetic Testing & Activity", advice := ["Complete genetic testing", "Provide lots of climbing and play", "Monitor joints during growth", "High-quality protein diet"] },
    { ageRange := (2, 5), focus := "Kidney Baseline", advice := ["Establish kidney function baseline by age 4", "Encourage hydration", "Regular eye exams", "Monitor activity levels for anemia"] },
    { ageRange := (5, 10), focus := "Kidney Health Priority", advice := ["Regular kidney monitoring crucial", "Consider kidney-supportive diet", "Watch water intake closely", "Continue active lifestyle"] },
    { ageRange := (10, 15), focus := "Senior Support", advice := ["Intensive kidney monitoring", "Joint support if needed", "Keep activity appropriate", "Regular comprehensive checks"] }]
  generalNotes := "Active, playful breed with a shorter coat. Renal amyloidosis is a major concern - early and regular kidney monitoring essential." }

def exoticShorthair : BreedHealthProfile := {
  breed := "Exotic Shorthair"
  aliases := ["exotic shorthair", "exotic", "shorthaired persian"]
  sizeCategory := SizeCategory.medium
  lifeExpectancy := { min := 12, max := 15 }
  idealWeight := { min := 3.5, max := 6 }
  healthRisks := [{ condition := "Polycystic Kidney Disease (PKD)", riskLevel := RiskLevel.high, typicalOnsetYears := 7, monitoringAdvice := "Same as Persian. Genetic test and ultrasound screening.", symptoms := some ["Increased thirst", "Weight loss", "Lethargy"] },
    { condition := "Brachycephalic Airway Syndrome", riskLevel := RiskLevel.high, typicalOnsetYears := 0, monitoringAdvice := "Flat face causes breathing issues. Avoid heat stress.", symptoms := some ["Noisy breathing", "Snoring", "Heat intolerance"] },
    { condition := "Dental Crowding", riskLevel := RiskLevel.moderate, typicalOnsetYears := 1, monitoringAdvice := "Flat face can cause dental issues. Regular dental exams.", symptoms := some ["Bad breath", "Difficulty eating"] }]
  screeningSchedule := [{ ageYears := 1, screenings := ["PKD genetic test", "Dental exam", "Baseline bloodwork"], reason := "Genetic screening" },
    { ageYears := 4, screenings := ["Kidney ultrasound", "Dental assessment"], reason := "PKD monitoring" },
    { ageYears := 7, screenings := ["Full panel", "Kidney function", "Respiratory assessment"], reason := "Senior preparation" }]
  ageSpecificAdvice := [{ ageRange := (0, 3), focus := "Breathing & Dental", advice := ["Keep environment cool", "Monitor breathing especially in summer", "Regular dental care", "PKD genetic test"] },
    { ageRange := (3, 7), focus := "Kidney Monitoring", advice := ["Begin kidney screening", "Maintain dental health", "Climate control important", "Monitor weight"] },
    { ageRange := (7, 15), focus := "Senior Care", advice := ["Regular kidney monitoring", "Dental care continues", "Keep stress low", "Easy breathing environment"] }]
  generalNotes := "Persian temperament with short coat. Same flat-face issues as Persian. PKD testing essential." }

def burmese : BreedHealthProfile := {
  breed := "Burmese"
  aliases := ["burmese", "burmese cat"]
  sizeCategory := SizeCategory.medium
  lifeExpectancy := { min := 15, max := 18 }
  idealWeight := { min := 3.5, max := 5.5 }
  healthRisks := [{ condition := "Diabetes Mellitus", riskLevel := RiskLevel.high, typicalOnsetYears := 8, monitoringAdvice := "More prone than other breeds. Regular glucose monitoring after age 7.", symptoms := some ["Increased thirst", "Increased urination", "Weight loss despite eating"] },
    { condition := "Hypokalaemia", riskLevel := RiskLevel.moderate, typicalOnsetYears := 3, monitoringAdvice := "Genetic predisposition to low potassium. Bloodwork monitoring.", symptoms := some ["Muscle weakness", "Difficulty walking", "Head droop"] },
    { condition := "Cranial Deformities", riskLevel := RiskLevel.low, typicalOnsetYears := 0, monitoringAdvice := "Present at birth in affected kittens. Reputable breeders screen.", symptoms := some [] }]
  screeningSchedule := [{ ageYears := 2, screenings := ["Baseline bloodwork including potassium", "General health check"], reason := "Establish baseline" },
    { ageYears := 6, screenings := ["Glucose screening", "Potassium levels", "Full panel"], reason := "Pre-diabetes monitoring" },
    { ageYears := 9, screenings := ["Glucose tolerance", "Full senior panel"], reason := "Diabetes monitoring" },
    { ageYears := 12, screenings := ["Comprehensive senior workup", "Glucose monitoring"], reason := "Senior care" }]
  ageSpecificAdvice := [{ ageRange := (0, 3), focus := "Establishing Health", advice := ["Monitor potassium levels", "High-quality diet", "Regular exercise to maintain weight", "Socialize well"] },
    { ageRange := (3, 7), focus := "Metabolic Health", advice := ["Watch weight carefully", "Regular bloodwork", "Maintain active lifestyle", "Avoid overfeeding"] },
    { ageRange := (7, 12), focus := "Diabetes Prevention", advice := ["Regular glucose monitoring", "Weight management critical", "Consider low-carb diet", "Watch for diabetes signs"] },
    { ageRange := (12, 20), focus := "Long-Lived Senior", advice := ["Burmese often live 15-18 years", "Continue metabolic monitoring", "Maintain healthy weight", "Regular comprehensive exams"] }]
  generalNotes := "Affectionate, people-oriented breed with long lifespan. Higher diabetes risk requires weight management and glucose monitoring." }

def orientalShorthair : BreedHealthProfile := {
  breed := "Oriental Shorthair"
  aliases := ["oriental shorthair", "oriental", "osh"]
  sizeCategory := SizeCategory.medium
  lifeExpectancy := { min := 12, max := 15 }
  idealWeight := { min := 3, max := 5 }
  healthRisks := [{ condition := "Amyloidosis (Liver)", riskLevel := RiskLevel.high, typicalOnsetYears := 6, monitoringAdvice := "Related to Siamese. Regular liver function tests.", symptoms := some ["Lethargy", "Weight loss", "Jaundice"] },
    { condition := "Dilated Cardiomyopathy (DCM)", riskLevel := RiskLevel.moderate, typicalOnsetYears := 5, monitoringAdvice := "Annual heart screening after age 4.", symptoms := some ["Lethargy", "Breathing difficulties", "Weakness"] },
    { condition := "Dental Disease", riskLevel := RiskLevel.moderate, typicalOnsetYears := 2, monitoringAdvice := "Similar to Siamese. Regular dental care essential.", symptoms := some ["Bad breath", "Red gums", "Difficulty eating"] }]
  screeningSchedule := [{ ageYears := 2, screenings := ["Dental exam", "Baseline bloodwork"], reason := "Establish baseline" },
    { ageYears := 4, screenings := ["Heart check", "Liver panel", "Dental assessment"], reason := "Begin cardiac monitoring" },
    { ageYears := 7, screenings := ["Full bloodwork", "Echocardiogram", "Dental care"], reason := "Senior preparation" }]
  ageSpecificAdvice := [{ ageRange := (0, 3), focus := "Dental Care Start", advice := ["Begin dental routine early", "High-protein diet", "Lots of social interaction", "Mental stimulation crucial"] },
    { ageRange := (3, 7), focus := "Heart & Liver Watch", advice := ["Begin cardiac screening", "Monitor liver function", "Continue dental care", "Keep active and engaged"] },
    { ageRange := (7, 15), focus := "Monitoring & Care", advice := ["Regular comprehensive exams", "Watch for signs of amyloidosis", "Dental health maintenance", "Heart monitoring continues"] }]
  generalNotes := "Related to Siamese with similar health concerns. Very vocal and social. Requires lots of attention and mental stimulation." }

def russianBlue : BreedHealthProfile := {
  breed := "Russian Blue"
  aliases := ["russian blue", "archangel blue"]
  sizeCategory := SizeCategory.medium
  lifeExpectancy := { min := 15, max := 20 }
  idealWeight := { min := 3.5, max := 5.5 }
  healthRisks := [{ condition := "Bladder Stones", riskLevel := RiskLevel.moderate, typicalOnsetYears := 5, monitoringAdvice := "Encourage water intake. Regular urinalysis.", symptoms := some ["Straining to urinate", "Blood in urine", "Frequent urination"] },
    { condition := "Obesity", riskLevel := RiskLevel.moderate, typicalOnsetYears := 3, monitoringAdvice := "This breed loves food. Strict portion control needed.", symptoms := some ["Weight gain", "Decreased activity"] }]
  screeningSchedule := [{ ageYears := 2, screenings := ["Baseline bloodwork", "Weight assessment"], reason := "Establish baseline" },
    { ageYears := 5, screenings := ["Urinalysis", "Weight check", "Bloodwork"], reason := "Bladder health monitoring" },
    { ageYears := 8, screenings := ["Senior panel", "Urinalysis"], reason := "Senior preparation" }]
  ageSpecificAdvice := [{ ageRange := (0, 3), focus := "Weight Foundation", advice := ["Establish portion control early", "Encourage play despite shy nature", "High-quality diet", "Gradual socialization"] },
    { ageRange := (3, 8), focus := "Weight & Urinary Health", advice := ["Monitor weight closely", "Ensure adequate water intake", "Consider wet food for hydration", "Regular urinalysis"] },
    { ageRange := (8, 15), focus := "Healthy Aging", advice := ["Continue weight management", "Regular health checks", "This breed ages gracefully", "Maintain enrichment"] },
    { ageRange := (15, 20), focus := "Long Life Care", advice := ["Russian Blues often live very long", "Regular senior checks", "Comfortable environment", "Monitor for age-related changes"] }]
  generalNotes := "Generally healthy breed with long lifespan. Prone to weight gain and bladder issues. Shy but loyal temperament." }

def sphynx : BreedHealthProfile := {
  breed := "Sphynx"
  aliases := ["sphynx", "sphinx", "hairless cat"]
  sizeCategory := SizeCategory.small
  lifeExpectancy := { min := 12, max := 15 }
  idealWeight := { min := 3, max := 5 }
  healthRisks := [{ condition := "Hypertrophic Cardiomyopathy (HCM)", riskLevel := RiskLevel.high, typicalOnsetYears := 3, monitoringAdvice := "Annual echocardiograms starting at age 2. High prevalence in breed.", symptoms := some ["Lethargy", "Rapid breathing", "Weakness"] },
    { condition := "Skin Issues", riskLevel := RiskLevel.high, typicalOnsetYears := 0, monitoringAdvice := "Regular bathing needed. Watch for oil buildup and infections.", symptoms := some ["Oily skin", "Skin infections", "Acne"] },
    { condition := "Temperature Sensitivity", riskLevel := RiskLevel.moderate, typicalOnsetYears := 0, monitoringAdvice := "No fur means they need warmth. Provide heated beds, sweaters.", symptoms := some ["Shivering", "Seeking warmth constantly"] },
    { condition := "Hereditary Myopathy", riskLevel := RiskLevel.moderate, typicalOnsetYears := 1, monitoringAdvice := "Genetic predisposition. Watch for muscle weakness.", symptoms := some ["Muscle weakness", "Difficulty swallowing", "Fatigue"] }]
  screeningSchedule := [{ ageYears := 1, screenings := ["Skin assessment", "Baseline bloodwork", "Heart check"], reason := "Establish baseline" },
    { ageYears := 2, screenings := ["Echocardiogram", "Skin check"], reason := "Critical - begin HCM monitoring early" },
    { ageYears := 4, screenings := ["Annual echocardiogram", "Full panel"], reason := "Ongoing cardiac monitoring" },
    { ageYears := 8, screenings := ["Senior panel", "Cardiac assessment", "Skin health"], reason := "Senior care" }]
  ageSpecificAdvice := [{ ageRange := (0, 2), focus := "Skin & Heart Foundation", advice := ["Establish bathing routine (weekly)", "First echocardiogram by age 2", "Provide warmth - heated beds essential", "Sun protection if exposed to windows"] },
    { ageRange := (2, 6), focus := "Cardiac Priority", advice := ["Annual echocardiograms essential", "Maintain skin care routine", "Temperature regulation important", "High-calorie diet for heat generation"] },
    { ageRange := (6, 12), focus := "Continuing Care", advice := ["Heart monitoring continues", "Watch skin for changes", "Dental care - no whiskers to detect food", "Keep environment warm"] },
    { ageRange := (12, 15), focus := "Senior Sphynx", advice := ["Increased cardiac monitoring", "Extra warmth needed", "Skin may need more care", "Comfortable, heated spaces"] }]
  generalNotes := "Hairless breed requiring special care. High HCM risk - cardiac screening essential. Needs weekly bathing and warmth." }

def devonRex : BreedHealthProfile := {
  breed := "Devon Rex"
  aliases := ["devon rex", "devon", "pixie cat"]
  sizeCategory := SizeCategory.small
  lifeExpectancy := { min := 12, max := 15 }
  idealWeight := { min := 2.5, max := 4 }
  healthRisks := [{ condition := "Hereditary Myopathy", riskLevel := RiskLevel.high, typicalOnsetYears := 0.5, monitoringAdvice := "Genetic condition causing muscle weakness. Usually apparent in kittens.", symptoms := some ["Muscle weakness", "Head bobbing", "Difficulty swallowing", "Fatigue"] },
    { condition := "Patellar Luxation", riskLevel := RiskLevel.moderate, typicalOnsetYears := 2, monitoringAdvice := "Watch for limping or abnormal gait.", symptoms := some ["Limping", "Leg held up", "Skipping gait"] },
    { condition := "Hip Dysplasia", riskLevel := RiskLevel.moderate, typicalOnsetYears := 3, monitoringAdvice := "Monitor mobility as they age.", symptoms := some ["Reluctance to jump", "Stiffness"] },
    { condition := "Skin Sensitivity", riskLevel := RiskLevel.moderate, typicalOnsetYears := 0, monitoringAdvice := "Curly coat can cause skin issues. Regular grooming needed.", symptoms := some ["Skin irritation", "Oily skin"] }]
  screeningSchedule := [{ ageYears := 1, screenings := ["Myopathy assessment", "Joint evaluation", "Baseline bloodwork"], reason := "Screen for hereditary issues" },
    { ageYears := 3, screenings := ["Joint assessment", "Heart check"], reason := "Monitor for developing issues" },
    { ageYears := 7, screenings := ["Full panel", "Joint evaluation"], reason := "Senior preparation" }]
  ageSpecificAdvice := [{ ageRange := (0, 2), focus := "Genetic Monitoring", advice := ["Watch for myopathy signs", "Monitor joint health", "Gentle skin care for curly coat", "High-calorie diet - high metabolism"] },
    { ageRange := (2, 6), focus := "Joint Care", advice := ["Monitor for patella issues", "Keep weight healthy for joints", "Regular exercise appropriate for build", "Skin care routine"] },
    { ageRange := (6, 12), focus := "Maintenance", advice := ["Joint supplements may help", "Regular health checks", "Maintain healthy weight", "Skin monitoring continues"] },
    { ageRange := (12, 15), focus := "Senior Support", advice := ["Joint care priority", "Soft bedding", "Warmth - thin coat provides less insulation", "Regular vet visits"] }]
  generalNotes := "Playful, mischievous breed with unique curly coat. Hereditary myopathy is a concern. Needs warmth and joint care." }

def cornishRex : BreedHealthProfile := {
  breed := "Cornish Rex"
  aliases := ["cornish rex", "cornish"]
  sizeCategory := SizeCategory.small
  lifeExpectancy := { min := 12, max := 15 }
  idealWeight := { min := 2.5, max := 4.5 }
  healthRisks := [{ condition := "Hypotrichosis", riskLevel := RiskLevel.moderate, typicalOnsetYears := 0, monitoringAdvice := "Some may develop bald patches. Usually cosmetic.", symptoms := some ["Hair loss", "Thin coat areas"] },
    { condition := "Patellar Luxation", riskLevel := RiskLevel.moderate, typicalOnsetYears := 2, monitoringAdvice := "Similar to Devon Rex. Monitor joint health.", symptoms := some ["Limping", "Abnormal gait"] },
    { condition := "Hypertrophic Cardiomyopathy (HCM)", riskLevel := RiskLevel.moderate, typicalOnsetYears := 5, monitoringAdvice := "Less common than in Sphynx but still monitor.", symptoms := some ["Lethargy", "Breathing changes"] }]
  screeningSchedule := [{ ageYears := 2, screenings := ["Joint evaluation", "Skin assessment", "Baseline bloodwork"], reason := "Establish baseline" },
    { ageYears := 5, screenings := ["Heart check", "Joint assessment"], reason := "Cardiac monitoring begins" },
    { ageYears := 8, screenings := ["Senior panel", "Full assessment"], reason := "Senior care" }]
  ageSpecificAdvice := [{ ageRange := (0, 3), focus := "Growth & Joints", advice := ["Monitor joint development", "High-calorie diet for high metabolism", "Warmth needed - wavy coat provides less insulation", "Gentle grooming"] },
    { ageRange := (3, 8), focus := "Active Adult", advice := ["Keep joints healthy with appropriate exercise", "Maintain healthy weight", "Begin heart monitoring", "Skin care"] },
    { ageRange := (8, 15), focus := "Senior Years", advice := ["Joint support", "Regular cardiac checks", "Warmth important", "Regular health monitoring"] }]
  generalNotes := "Elegant, athletic breed with unique wavy coat. Similar to Devon Rex in care needs. Needs warmth and joint monitoring." }

def scottishFold : BreedHealthProfile := {
  breed := "Scottish Fold"
  aliases := ["scottish fold", "scottish", "fold"]
  sizeCategory := SizeCategory.medium
  lifeExpectancy := { min := 11, max := 14 }
  idealWeight := { min := 3, max := 6 }
  healthRisks := [{ condition := "Osteochondrodysplasia", riskLevel := RiskLevel.high, typicalOnsetYears := 0, monitoringAdvice := "Genetic condition affecting all Scottish Folds. Causes arthritis and cartilage issues.", symptoms := some ["Stiffness", "Reluctance to move", "Thick/stiff tail", "Limping"] },
    { condition := "Arthritis", riskLevel := RiskLevel.high, typicalOnsetYears := 2, monitoringAdvice := "Develops early due to osteochondrodysplasia. Pain management essential.", symptoms := some ["Stiffness", "Reluctance to jump", "Difficulty grooming"] },
    { condition := "Cardiomyopathy", riskLevel := RiskLevel.moderate, typicalOnsetYears := 5, monitoringAdvice := "Regular heart monitoring recommended.", symptoms := some ["Lethargy", "Breathing difficulties"] }]
  screeningSchedule := [{ ageYears := 1, screenings := ["Joint assessment", "Baseline X-rays", "Bloodwork"], reason := "Assess bone/joint development" },
    { ageYears := 3, screenings := ["Joint X-rays", "Pain assessment", "Heart check"], reason := "Monitor progression" },
    { ageYears := 5, screenings := ["Full joint evaluation", "Cardiac screening", "Pain management review"], reason := "Ongoing care" },
    { ageYears := 8, screenings := ["Comprehensive assessment", "Pain management"], reason := "Senior care" }]
  ageSpecificAdvice := [{ ageRange := (0, 2), focus := "Joint Baseline", advice := ["X-rays to assess bone development", "Soft bedding essential", "Low-impact play", "Watch for early stiffness signs"] },
    { ageRange := (2, 5), focus := "Pain Prevention", advice := ["Joint supplements from early age", "Maintain healthy weight - critical for joints", "Pain medication if needed", "Accessible litter boxes and food"] },
    { ageRange := (5, 10), focus := "Comfort Priority", advice := ["Pain management review regularly", "Heated beds can help", "Gentle handling", "Monitor mobility closely"] },
    { ageRange := (10, 14), focus := "Quality of Life", advice := ["Focus on comfort and pain control", "Easy access to everything", "Regular pain assessments", "Consider mobility aids"] }]
  generalNotes := "Sweet, gentle breed but ALL Scottish Folds have a genetic condition affecting bones/cartilage. Early and ongoing joint care is essential. Pain management is a priority." }

def birman : BreedHealthProfile := {
  breed := "Birman"
  aliases := ["birman", "sacred cat of burma"]
  sizeCategory := SizeCategory.medium
  lifeExpectancy := { min := 12, max := 16 }
  idealWeight := { min := 3.5, max := 6 }
  healthRisks := [{ condition := "Hypertrophic Cardiomyopathy (HCM)", riskLevel := RiskLevel.moderate, typicalOnsetYears := 5, monitoringAdvice := "Annual cardiac screening after age 4.", symptoms := some ["Lethargy", "Breathing difficulties"] },
    { condition := "Renal Disease", riskLevel := RiskLevel.moderate, typicalOnsetYears := 8, monitoringAdvice := "Monitor kidney function from middle age.", symptoms := some ["Increased thirst", "Weight loss"] },
    { condition := "Feline Hyperesthesia Syndrome", riskLevel := RiskLevel.low, typicalOnsetYears := 1, monitoringAdvice := "Watch for skin rippling and excessive grooming.", symptoms := some ["Skin rippling", "Tail chasing", "Excessive grooming"] }]
  screeningSchedule := [{ ageYears := 2, screenings := ["Baseline bloodwork", "General health check"], reason := "Establish baseline" },
    { ageYears := 5, screenings := ["Echocardiogram", "Kidney panel"], reason := "Begin cardiac/renal monitoring" },
    { ageYears := 8, screenings := ["Full senior panel", "Heart check", "Kidney function"], reason := "Senior preparation" }]
  ageSpecificAdvice := [{ ageRange := (0, 3), focus := "Socialization & Grooming", advice := ["Regular grooming for silky coat", "Gentle socialization", "Establish health baseline", "Watch for hyperesthesia signs"] },
    { ageRange := (3, 8), focus := "Preventive Care", advice := ["Begin cardiac screening at 5", "Monitor kidney function", "Maintain grooming routine", "Keep stress low"] },
    { ageRange := (8, 16), focus := "Senior Care", advice := ["Regular cardiac and kidney checks", "Comfortable environment", "Continue gentle grooming", "Monitor for age-related changes"] }]
  generalNotes := "Gentle, quiet breed with beautiful coat. Generally healthy but monitor heart and kidneys as they age." }

def turkishAngora : BreedHealthProfile := {
  breed := "Turkish Angora"
  aliases := ["turkish angora", "angora"]
  sizeCategory := SizeCategory.medium
  lifeExpectancy := { min := 12, max := 18 }
  idealWeight := { min := 3, max := 5 }
  healthRisks := [{ condition := "Deafness (White Cats)", riskLevel := RiskLevel.high, typicalOnsetYears := 0, monitoringAdvice := "White Turkish Angoras, especially with blue eyes, often deaf. BAER test available.", symptoms := some ["No response to sounds", "Startles easily when touched"] },
    { condition := "Ataxia", riskLevel := RiskLevel.moderate, typicalOnsetYears := 0.5, monitoringAdvice := "Hereditary condition affecting coordination. Usually apparent in kittens.", symptoms := some ["Uncoordinated movement", "Head bobbing", "Balance issues"] },
    { condition := "Hypertrophic Cardiomyopathy (HCM)", riskLevel := RiskLevel.moderate, typicalOnsetYears := 5, monitoringAdvice := "Annual heart screening from age 4.", symptoms := some ["Lethargy", "Breathing changes"] }]
  screeningSchedule := [{ ageYears := 0.5, screenings := ["BAER hearing test (white cats)", "Neurological assessment"], reason := "Screen for deafness and ataxia" },
    { ageYears := 4, screenings := ["Echocardiogram", "General health check"], reason := "Begin cardiac monitoring" },
    { ageYears := 8, screenings := ["Heart check", "Senior panel"], reason := "Senior care" }]
  ageSpecificAdvice := [{ ageRange := (0, 2), focus := "Genetic Screening", advice := ["BAER test for white cats", "Monitor for ataxia signs", "Establish grooming routine for long coat", "Indoor-only recommended for deaf cats"] },
    { ageRange := (2, 6), focus := "Active Adult Care", advice := ["Very active breed - provide lots of play", "Begin cardiac monitoring at 4", "Keep coat well-groomed", "Mental stimulation important"] },
    { ageRange := (6, 12), focus := "Healthy Aging", advice := ["Regular heart checks", "Maintain activity level", "Grooming routine continues", "Watch for any mobility changes"] },
    { ageRange := (12, 18), focus := "Long-Lived Senior", advice := ["Turkish Angoras can live very long", "Regular monitoring", "Comfort-focused care", "Gentle grooming"] }]
  generalNotes := "Elegant, ancient breed known for long silky coat. White cats often deaf. Active and intelligent, often lives into late teens." }

def himalayan : BreedHealthProfile := {
  breed := "Himalayan"
  aliases := ["himalayan", "himmie", "colorpoint persian"]
  sizeCategory := SizeCategory.medium
  lifeExpectancy := { min := 12, max := 15 }
  idealWeight := { min := 3.5, max := 5.5 }
  healthRisks := [{ condition := "Polycystic Kidney Disease (PKD)", riskLevel := RiskLevel.high, typicalOnsetYears := 7, monitoringAdvice := "Same as Persian - genetic test and ultrasound essential.", symptoms := some ["Increased thirst", "Weight loss", "Lethargy"] },
    { condition := "Brachycephalic Airway Syndrome", riskLevel := RiskLevel.high, typicalOnsetYears := 0, monitoringAdvice := "Flat face causes breathing issues. Avoid heat and stress.", symptoms := some ["Noisy breathing", "Snoring", "Exercise intolerance"] },
    { condition := "Progressive Retinal Atrophy (PRA)", riskLevel := RiskLevel.moderate, typicalOnsetYears := 4, monitoringAdvice := "Annual eye exams recommended.", symptoms := some ["Night blindness", "Vision loss"] }]
  screeningSchedule := [{ ageYears := 1, screenings := ["PKD genetic test", "Eye exam", "Baseline bloodwork"], reason := "Genetic screening" },
    { ageYears := 4, screenings := ["Kidney ultrasound", "Eye exam"], reason := "PKD monitoring" },
    { ageYears := 7, screenings := ["Full panel", "Kidney function", "Eye exam"], reason := "Senior preparation" }]
  ageSpecificAdvice := [{ ageRange := (0, 3), focus := "Breathing & Grooming", advice := ["Keep environment cool", "Establish daily grooming routine", "PKD genetic test", "Monitor breathing"] },
    { ageRange := (3, 7), focus := "Kidney & Eye Health", advice := ["Begin kidney screening", "Annual eye exams", "Maintain grooming", "Climate control important"] },
    { ageRange := (7, 15), focus := "Senior Care", advice := ["Regular kidney monitoring", "Keep stress low", "Comfortable environment", "Gentle care routine"] }]
  generalNotes := "Persian with Siamese coloring. Same health concerns as Persian including PKD and breathing issues. High-maintenance coat." }

def domesticShorthair : BreedHealthProfile := {
  breed := "Domestic Shorthair"
  aliases := ["domestic shorthair", "dsh", "house cat", "moggy", "mixed breed", "tabby", "mixed"]
  sizeCategory := SizeCategory.medium
  lifeExpectancy := { min := 12, max := 20 }
  idealWeight := { min := 3.5, max := 5.5 }
  healthRisks := [{ condition := "Obesity", riskLevel := RiskLevel.moderate, typicalOnsetYears := 3, monitoringAdvice := "Very common in pet cats. Portion control and regular exercise essential.", symptoms := some ["Visible weight gain", "Decreased activity", "Difficulty grooming"] },
    { condition := "Dental Disease", riskLevel := RiskLevel.moderate, typicalOnsetYears := 3, monitoringAdvice := "Common in all cats. Annual dental exams recommended.", symptoms := some ["Bad breath", "Difficulty eating", "Red gums"] },
    { condition := "Diabetes", riskLevel := RiskLevel.moderate, typicalOnsetYears := 8, monitoringAdvice := "Often linked to obesity. Weight management is key.", symptoms := some ["Increased thirst", "Increased urination", "Weight changes"] },
    { condition := "Kidney Disease", riskLevel := RiskLevel.moderate, typicalOnsetYears := 10, monitoringAdvice := "Common in senior cats. Regular bloodwork after age 7.", symptoms := some ["Increased thirst", "Weight loss", "Decreased appetite"] }]
  screeningSchedule := [{ ageYears := 1, screenings := ["Baseline bloodwork", "Dental exam", "Weight assessment"], reason := "Establish baseline" },
    { ageYears := 5, screenings := ["Full bloodwork", "Dental assessment", "Weight check"], reason := "Middle-age check" },
    { ageYears := 7, screenings := ["Senior bloodwork including kidney/thyroid", "Dental care"], reason := "Begin senior monitoring" },
    { ageYears := 10, screenings := ["Bi-annual senior panels", "Complete assessment"], reason := "Senior care intensifies" }]
  ageSpecificAdvice := [{ ageRange := (0, 2), focus := "Foundation Health", advice := ["Spay/neuter if not done", "Establish feeding routine and portions", "Complete vaccinations", "Regular play for healthy development"] },
    { ageRange := (2, 7), focus := "Maintenance & Prevention", advice := ["Annual checkups", "Maintain healthy weight", "Dental care important", "Keep mentally and physically active"] },
    { ageRange := (7, 12), focus := "Senior Transition", advice := ["Switch to bi-annual vet visits", "Monitor for diabetes and kidney disease", "Adjust diet as needed", "Watch for arthritis signs"] },
    { ageRange := (12, 20), focus := "Senior Care", advice := ["Regular bloodwork monitoring", "Comfort and quality of life focus", "Easy access to resources", "Watch for cognitive changes"] }]
  generalNotes := "Mixed breed cats are generally hardy with genetic diversity. Still need regular care and preventive health measures. Can live very long with proper care." }

def domesticLonghair : BreedHealthProfile := {
  breed := "Domestic Longhair"
  aliases := ["domestic longhair", "dlh", "long-haired cat", "longhair"]
  sizeCategory := SizeCategory.medium
  lifeExpectancy := { min := 12, max := 18 }
  idealWeight := { min := 3.5, max := 6 }
  healthRisks := [{ condition := "Hairballs", riskLevel := RiskLevel.moderate, typicalOnsetYears := 1, monitoringAdvice := "Long coat leads to more hairballs. Regular grooming and hairball remedies help.", symptoms := some ["Frequent vomiting", "Constipation", "Dry heaving"] },
    { condition := "Matted Fur", riskLevel := RiskLevel.moderate, typicalOnsetYears := 0, monitoringAdvice := "Regular grooming essential. Mats can cause skin issues.", symptoms := some ["Tangled fur", "Skin irritation under mats"] },
    { condition := "Obesity", riskLevel := RiskLevel.moderate, typicalOnsetYears := 3, monitoringAdvice := "Same as DSH. Long fur can hide weight gain.", symptoms := some ["Weight gain", "Difficulty grooming"] },
    { condition := "Kidney Disease", riskLevel := RiskLevel.moderate, typicalOnsetYears := 10, monitoringAdvice := "Common in senior cats.", symptoms := some ["Increased thirst", "Weight loss"] }]
  screeningSchedule := [{ ageYears := 1, screenings := ["Baseline bloodwork", "Coat/skin assessment"], reason := "Establish baseline" },
    { ageYears := 5, screenings := ["Full bloodwork", "Weight check"], reason := "Middle-age check" },
    { ageYears := 7, screenings := ["Senior panel", "Thyroid check"], reason := "Senior monitoring begins" },
    { ageYears := 10, screenings := ["Bi-annual senior panels"], reason := "Senior care" }]
  ageSpecificAdvice := [{ ageRange := (0, 2), focus := "Grooming Foundation", advice := ["Establish daily grooming routine early", "Train to accept brushing", "Hairball prevention diet/treats", "Regular play"] },
    { ageRange := (2, 7), focus := "Coat & Weight Care", advice := ["Maintain grooming routine", "Monitor weight under the fluff", "Dental care", "Annual checkups"] },
    { ageRange := (7, 12), focus := "Senior Prep", advice := ["May need grooming help as they age", "Regular senior bloodwork", "Watch for mobility affecting self-grooming", "Hairball management continues"] },
    { ageRange := (12, 18), focus := "Senior Support", advice := ["Assist with grooming if needed", "Regular health monitoring", "Comfort-focused care", "Watch for matting in hard-to-reach areas"] }]
  generalNotes := "Mixed breed with long coat. Needs regular grooming to prevent mats and hairballs. Generally healthy with good genetic diversity." }

def tuxedo : BreedHealthProfile := {
  breed := "Tuxedo"
  aliases := ["tuxedo", "tuxedo cat", "black and white"]
  sizeCategory := SizeCategory.medium
  lifeExpectancy := { min := 12, max := 20 }
  idealWeight := { min := 3.5, max := 5.5 }
  healthRisks := domesticShorthair.healthRisks
  screeningSchedule := domesticShorthair.screeningSchedule
  ageSpecificAdvice := domesticShorthair.ageSpecificAdvice
  generalNotes := "Tuxedo is a color pattern, not a breed. Health considerations are same as Domestic Shorthair. Known for personality and intelligence!" }

def calico : BreedHealthProfile := {
  breed := "Calico"
  aliases := ["calico", "calico cat", "tricolor"]
  sizeCategory := SizeCategory.medium
  lifeExpectancy := { min := 12, max := 18 }
  idealWeight := { min := 3.5, max := 5.5 }
  healthRisks := domesticShorthair.healthRisks ++ [{ condition := "Klinefelter Syndrome (Male Calicos)", riskLevel := RiskLevel.high, typicalOnsetYears := 0, monitoringAdvice := "Male calicos are extremely rare and have XXY chromosomes. Often have health issues.", symptoms := some ["Developmental issues", "Cognitive problems", "Behavioral differences"] }]
  screeningSchedule := domesticShorthair.screeningSchedule
  ageSpecificAdvice := domesticShorthair.ageSpecificAdvice
  generalNotes := "Calico is a color pattern (almost always female). Health considerations similar to Domestic Shorthair. Male calicos are rare and may have genetic issues." }

def tabby : BreedHealthProfile := {
  breed := "Tabby"
  aliases := ["tabby", "tabby cat", "striped cat", "tiger cat"]
  sizeCategory := SizeCategory.medium
  lifeExpectancy := { min := 12, max := 20 }
  idealWeight := { min := 3.5, max := 5.5 }
  healthRisks := domesticShorthair.healthRisks
  screeningSchedule := domesticShorthair.screeningSchedule
  ageSpecificAdvice := domesticShorthair.ageSpecificAdvice
  generalNotes := "Tabby is a coat pattern, not a breed. Health considerations same as Domestic Shorthair. Very common and hardy pattern." }

def americanShorthair : BreedHealthProfile := {
  breed := "American Shorthair"
  aliases := ["american shorthair", "ash"]
  sizeCategory := SizeCategory.medium
  lifeExpectancy := { min := 15, max := 20 }
  idealWeight := { min := 4, max := 6 }
  healthRisks := [{ condition := "Hypertrophic Cardiomyopathy (HCM)", riskLevel := RiskLevel.moderate, typicalOnsetYears := 5, monitoringAdvice := "Annual heart screening from age 4.", symptoms := some ["Lethargy", "Breathing difficulties"] },
    { condition := "Obesity", riskLevel := RiskLevel.moderate, typicalOnsetYears := 3, monitoringAdvice := "Muscular breed that can become overweight. Portion control needed.", symptoms := some ["Weight gain", "Decreased activity"] }]
  screeningSchedule := [{ ageYears := 2, screenings := ["Baseline bloodwork", "Weight assessment"], reason := "Establish baseline" },
    { ageYears := 5, screenings := ["Echocardiogram", "Full panel"], reason := "Cardiac monitoring" },
    { ageYears := 8, screenings := ["Senior panel", "Heart check"], reason := "Senior care" }]
  ageSpecificAdvice := [{ ageRange := (0, 3), focus := "Foundation", advice := ["Establish portion control", "Regular play sessions", "Annual checkups"] },
    { ageRange := (3, 8), focus := "Weight & Heart", advice := ["Monitor weight", "Begin cardiac screening", "Maintain activity"] },
    { ageRange := (8, 15), focus := "Senior Care", advice := ["Regular heart monitoring", "Joint support if needed", "Weight management continues"] },
    { ageRange := (15, 20), focus := "Golden Years", advice := ["Very long-lived breed", "Regular monitoring", "Comfort-focused care"] }]
  generalNotes := "Hardy, athletic breed with long lifespan. Generally healthy but watch weight and heart. Can live 15-20 years." }

def manx : BreedHealthProfile := {
  breed := "Manx"
  aliases := ["manx", "manx cat", "tailless cat"]
  sizeCategory := SizeCategory.medium
  lifeExpectancy := { min := 12, max := 14 }
  idealWeight := { min := 3.5, max := 5.5 }
  healthRisks := [{ condition := "Manx Syndrome", riskLevel := RiskLevel.high, typicalOnsetYears := 0, monitoringAdvice := "Spinal defects from the tailless gene. Can affect bowel/bladder control.", symptoms := some ["Incontinence", "Difficulty walking", "Constipation", "Hind leg weakness"] },
    { condition := "Arthritis", riskLevel := RiskLevel.moderate, typicalOnsetYears := 5, monitoringAdvice := "Spine issues can lead to early arthritis.", symptoms := some ["Stiffness", "Reluctance to jump"] },
    { condition := "Corneal Dystrophy", riskLevel := RiskLevel.moderate, typicalOnsetYears := 4, monitoringAdvice := "Annual eye exams recommended.", symptoms := some ["Cloudy eyes", "Vision changes"] }]
  screeningSchedule := [{ ageYears := 0.5, screenings := ["Spinal assessment", "Neurological evaluation"], reason := "Screen for Manx syndrome" },
    { ageYears := 3, screenings := ["X-rays if needed", "Eye exam"], reason := "Ongoing monitoring" },
    { ageYears := 6, screenings := ["Full assessment", "Pain evaluation", "Eye exam"], reason := "Monitor for arthritis" }]
  ageSpecificAdvice := [{ ageRange := (0, 2), focus := "Spinal Assessment", advice := ["Thorough evaluation for Manx syndrome", "Monitor bowel/bladder function", "Gentle exercise appropriate", "Watch for hind leg issues"] },
    { ageRange := (2, 7), focus := "Mobility Support", advice := ["Monitor for early arthritis", "Keep weight healthy for spine", "Regular eye exams", "Appropriate exercise levels"] },
    { ageRange := (7, 14), focus := "Comfort Care", advice := ["Pain management as needed", "Soft bedding important", "Easy access to litter box", "Regular monitoring"] }]
  generalNotes := "Unique tailless breed with genetic spinal concerns. Manx syndrome is a serious risk. Requires careful monitoring from kittenhood." }

def ragamuffin : BreedHealthProfile := {
  breed := "Ragamuffin"
  aliases := ["ragamuffin", "raga muffin"]
  sizeCategory := SizeCategory.large
  lifeExpectancy := { min := 12, max := 16 }
  idealWeight := { min := 4.5, max := 9 }
  healthRisks := [{ condition := "Hypertrophic Cardiomyopathy (HCM)", riskLevel := RiskLevel.moderate, typicalOnsetYears := 5, monitoringAdvice := "Related to Ragdoll - similar cardiac risks.", symptoms := some ["Lethargy", "Breathing difficulties"] },
    { condition := "Polycystic Kidney Disease (PKD)", riskLevel := RiskLevel.moderate, typicalOnsetYears := 7, monitoringAdvice := "Some PKD present in breeding lines. Ultrasound screening recommended.", symptoms := some ["Increased thirst", "Weight loss"] }]
  screeningSchedule := [{ ageYears := 2, screenings := ["Baseline bloodwork", "Heart check"], reason := "Establish baseline" },
    { ageYears := 5, screenings := ["Echocardiogram", "Kidney ultrasound"], reason := "Begin monitoring" },
    { ageYears := 8, screenings := ["Full senior panel", "Cardiac/renal check"], reason := "Senior care" }]
  ageSpecificAdvice := [{ ageRange := (0, 3), focus := "Growth Period", advice := ["Support healthy growth - large breed", "Regular grooming", "Socialize well", "Establish vet relationship"] },
    { ageRange := (3, 8), focus := "Adult Care", advice := ["Begin cardiac screening", "Monitor kidney health", "Maintain coat with regular grooming", "Keep active for weight management"] },
    { ageRange := (8, 16), focus := "Senior Years", advice := ["Regular heart and kidney monitoring", "Joint support for large frame", "Continue grooming assistance", "Comfort-focused care"] }]
  generalNotes := "Sweet, docile breed related to Ragdoll. Large size requires joint and heart attention. Generally healthy but monitor for HCM." }

def somali : BreedHealthProfile := {
  breed := "Somali"
  aliases := ["somali", "somali cat", "longhaired abyssinian"]
  sizeCategory := SizeCategory.medium
  lifeExpectancy := { min := 12, max := 16 }
  idealWeight := { min := 3, max := 5 }
  healthRisks := abyssinian.healthRisks
  screeningSchedule := abyssinian.screeningSchedule
  ageSpecificAdvice := [{ ageRange := (0, 2), focus := "Genetic Testing & Coat Care", advice := ["Complete genetic testing (same as Aby)", "Establish grooming routine for long coat", "Provide lots of activity", "High-quality protein diet"] },
    { ageRange := (2, 5), focus := "Kidney Baseline", advice := ["Establish kidney function baseline", "Regular grooming", "Eye exams for PRA", "Keep active and stimulated"] },
    { ageRange := (5, 10), focus := "Kidney Health Priority", advice := ["Regular kidney monitoring crucial", "Consider kidney-supportive diet", "Maintain grooming", "Continue active lifestyle"] },
    { ageRange := (10, 16), focus := "Senior Support", advice := ["Intensive kidney monitoring", "May need grooming help", "Joint support if needed", "Regular comprehensive checks"] }]
  generalNotes := "Long-haired version of Abyssinian with same health concerns. Active, intelligent breed. Renal amyloidosis is primary concern." }

def chartreux : BreedHealthProfile := {
  breed := "Chartreux"
  aliases := ["chartreux"]
  sizeCategory := SizeCategory.medium
  lifeExpectancy := { min := 12, max := 15 }
  idealWeight := { min := 4, max := 7 }
  healthRisks := [{ condition := "Patellar Luxation", riskLevel := RiskLevel.moderate, typicalOnsetYears := 2, monitoringAdvice := "Watch for limping or unusual gait.", symptoms := some ["Limping", "Skipping gait", "Leg held up"] },
    { condition := "Polycystic Kidney Disease (PKD)", riskLevel := RiskLevel.low, typicalOnsetYears := 7, monitoringAdvice := "Less common but can occur. Monitor kidney function in seniors.", symptoms := some ["Increased thirst", "Weight loss"] }]
  screeningSchedule := [{ ageYears := 2, screenings := ["Joint assessment", "Baseline bloodwork"], reason := "Establish baseline" },
    { ageYears := 5, screenings := ["Full bloodwork", "Joint check"], reason := "Middle age monitoring" },
    { ageYears := 8, screenings := ["Senior panel", "Kidney function"], reason := "Senior care" }]
  ageSpecificAdvice := [{ ageRange := (0, 3), focus := "Joint Development", advice := ["Monitor joint health", "Maintain healthy weight", "Regular play", "Establish brushing routine for dense coat"] },
    { ageRange := (3, 8), focus := "Maintenance", advice := ["Regular checkups", "Watch for patella issues", "Keep active", "Coat care"] },
    { ageRange := (8, 15), focus := "Senior Years", advice := ["Joint support if needed", "Regular bloodwork", "Continue coat care", "Monitor kidney function"] }]
  generalNotes := "Quiet, gentle French breed with distinctive blue-gray coat. Generally healthy. Watch joints and maintain dense coat." }

def BREED_HEALTH_DATABASE : List BreedHealthProfile := [
  maineCoon, ragdoll, norwegianForest, britishShorthair, savannah, ragamuffin, persian, bengal, siamese, abyssinian, exoticShorthair, burmese, orientalShorthair, russianBlue, scottishFold, birman, turkishAngora, himalayan, americanShorthair, manx, somali, chartreux, sphynx, devonRex, cornishRex, domesticShorthair, domesticLonghair, tuxedo, calico, tabby]


-- ============================================
-- Registry lookup functions (breed-health-data.ts)
-- ============================================

/-- The match predicate of `findBreedProfile`: case-insensitive comparison of
the canonical breed name or any alias against the normalized input. -/
def breedNameMatches (normalized : String) (profile : BreedHealthProfile) : Bool :=
  jsToLower profile.breed = normalized ||
    profile.aliases.any (fun al => jsToLower al = normalized)

/-- `findBreedProfile(breedName)`: null or empty (falsy) input defaults to the
Domestic Shorthair profile; otherwise a case-insensitive search of the
database, defaulting to Domestic Shorthair when nothing matches.  The TS
return type is `BreedHealthProfile | null`, but the body always returns a
profile, hence always `some`. -/
def findBreedProfile (breedName : Option String) : Option BreedHealthProfile :=
  match breedName with
  | none => some domesticShorthair
  | some s =>
    if s = "" then some domesticShorthair
    else
      let normalized := jsTrim (jsToLower s)
      some ((BREED_HEALTH_DATABASE.find? (breedNameMatches normalized)).getD domesticShorthair)

/-- `getHealthRisksForAge`: risks whose typical onset is at most two years ahead. -/
def getHealthRisksForAge (profile : BreedHealthProfile) (ageYears : ℚ) : List HealthRisk :=
  profile.healthRisks.filter (fun risk => risk.typicalOnsetYears ≤ ageYears + 2)

/-- `getAgeSpecificAdvice`: the advice band containing `ageYears`
(lower-inclusive, upper-exclusive), if any. -/
def getAgeSpecificAdvice (profile : BreedHealthProfile) (ageYears : ℚ) : Option AgeSpecificAdvice :=
  profile.ageSpecificAdvice.find? (fun advice =>
    advice.ageRange.1 ≤ ageYears && ageYears < advice.ageRange.2)

-- ============================================
-- Constants & helpers (page.tsx simulation engine)
-- ============================================

/-- Fallback weight ranges by breed size category (kg).  The TS `Record` is
total on the keys the program uses; every other key yields the `default`
entry. -/
def FALLBACK_WEIGHT_RANGES (key : String) : MinMax :=
  if key = "small" then { min := 2.5, max := 4.0 }
  else if key = "medium" then { min := 4.0, max := 5.5 }
  else if key = "large" then { min := 5.5, max := 8.0 }
  else { min := 3.5, max := 5.5 }

/-- Fallback breed-to-size mapping. -/
def FALLBACK_BREED_SIZES : List (String × String) := [
  ("maine coon", "large"), ("ragdoll", "large"), ("norwegian forest", "large"),
  ("british shorthair", "large"), ("savannah", "large"),
  ("bengal", "medium"), ("persian", "medium"),
  ("siamese", "small"), ("abyssinian", "small"), ("devon rex", "small"),
  ("cornish rex", "small"), ("sphynx", "small"),
  ("domestic shorthair", "medium"), ("domestic longhair", "medium"),
  ("tabby", "medium"), ("tuxedo", "medium"), ("calico", "medium"),
  ("default", "medium")]

/-- One life-stage boundary; the TS field `end` is a Lean keyword, so it is
named `endMonths` here. -/
structure LifeStageBound where
  endMonths : ℕ
deriving DecidableEq

structure LifeStagesRec where
  kitten : LifeStageBound
  youngAdult : LifeStageBound
  adult : LifeStageBound
  senior : LifeStageBound
  geriatric : LifeStageBound
deriving DecidableEq

/-- Life stage boundaries (in months). -/
def LIFE_STAGES : LifeStagesRec :=
  { kitten := ⟨12⟩, youngAdult := ⟨36⟩, adult := ⟨120⟩, senior := ⟨180⟩,
    geriatric := ⟨240⟩ }

/-- The fallback branch of `getIdealWeightRange` (runs when the registry
resolves to the generic Domestic Shorthair).  JS `!breed` is falsy for both
null and the empty string. -/
def getIdealWeightRangeFallback (breed : Option String) : MinMax :=
  match breed with
  | none => FALLBACK_WEIGHT_RANGES "default"
  | some b =>
    if b = "" then FALLBACK_WEIGHT_RANGES "default"
    else
      let normalizedBreed := jsTrim (jsToLower b)
      let size := (FALLBACK_BREED_SIZES.lookup normalizedBreed).getD "default"
      FALLBACK_WEIGHT_RANGES size

/-- `getIdealWeightRange(breed)`: comprehensive breed database first; a
resolution to the generic Domestic Shorthair falls back to the size table. -/
def getIdealWeightRange (breed : Option String) : MinMax :=
  match findBreedProfile breed with
  | some breedProfile =>
    if breedProfile.breed ≠ "Domestic Shorthair" then breedProfile.idealWeight
    else getIdealWeightRangeFallback breed
  | none => getIdealWeightRangeFallback breed

/-- `calculateCalorieProxy`: signed drift-rate heuristic from the care routine.
The `currentWeight` parameter is accepted but (as in the source) never read. -/
def calculateCalorieProxy (careRoutine : CareRoutine)
    (indoorOutdoor : Option IndoorOutdoor) (currentWeight idealWeight : ℚ) : ℚ :=
  let foodOz := careRoutine.foodAmountOzPerDay.getD 3.5
  let idealFoodOz := (idealWeight * 2.2) * 0.5
  let p1 := 0 + (foodOz - idealFoodOz) * 0.1
  let treats := careRoutine.treatsPerDay.getD 2
  let p2 := p1 + treats * 0.02
  let playMinutes := careRoutine.playMinutesPerDay.getD 15
  let p3 := p2 - playMinutes * 0.01
  let p4 := p3 +
    (match indoorOutdoor with
     | some IndoorOutdoor.indoor => 0.05
     | some IndoorOutdoor.outdoor => -0.05
     | some IndoorOutdoor.mixed => -0.05
     | none => 0)
  let p5 := p4 +
    (match careRoutine.foodType with
     | some FoodType.wet => -0.02
     | some FoodType.raw => -0.02
     | some FoodType.dry => 0.02
     | _ => 0)
  p5

/-- The first stage of `determineHealthStatus` (its lines computing
`midIdeal`, `deviation` and the base `status`): classification by relative
deviation of weight from the midpoint of the ideal range (<10% thriving,
<20% ok, <35% risky, else unhealthy). -/
def weightOnlyStatus (weight : ℚ) (idealRange : MinMax) : HealthStatus :=
  let midIdeal := (idealRange.min + idealRange.max) / 2
  let deviation := |weight - midIdeal| / midIdeal
  if deviation < 0.1 then HealthStatus.thriving
  else if deviation < 0.2 then HealthStatus.ok
  else if deviation < 0.35 then HealthStatus.risky
  else HealthStatus.unhealthy

/-- `determineHealthStatus`: classify by relative deviation of weight from the
midpoint of the ideal range (`weightOnlyStatus`), then apply the
worsening-only care adjustments. -/
def determineHealthStatus (weight : ℚ) (idealRange : MinMax)
    (vetVisitsPerYear : Option ℚ) (ageMonths : ℕ)
    (hasKnownConditions : Bool) : HealthStatus :=
  let status0 : HealthStatus := weightOnlyStatus weight idealRange
  let vetVisits := vetVisitsPerYear.getD 0
  let status1 :=
    if vetVisits = 0 ∧ ageMonths > 24 then
      if status0 = .thriving then .ok
      else if status0 = .ok then .risky
      else status0
    else status0
  let status2 :=
    if ageMonths > LIFE_STAGES.senior.endMonths then
      if vetVisits < 1 ∧ status1 ≠ .unhealthy then
        if status1 = .thriving then HealthStatus.ok else .risky
      else status1
    else status1
  let status3 :=
    if hasKnownConditions then
      if vetVisits < 2 then
        if status2 = .thriving then HealthStatus.ok else status2
      else status2
    else status2
  status3

/-- `getLifeStage`: life stage description for an age in months. -/
def getLifeStage (ageMonths : ℕ) : String :=
  if ageMonths < LIFE_STAGES.kitten.endMonths then "kitten"
  else if ageMonths < LIFE_STAGES.youngAdult.endMonths then "young adult"
  else if ageMonths < LIFE_STAGES.adult.endMonths then "adult"
  else if ageMonths < LIFE_STAGES.senior.endMonths then "senior"
  else "geriatric"

/-- `generateNotes`: narrative note for a simulation point. -/
def generateNotes (ageMonths : ℕ) (weight : ℚ) (status : HealthStatus)
    (idealRange : MinMax) (catName : String) : String :=
  let ageYears := ageMonths / 12
  let lifeStage := getLifeStage ageMonths
  let isOverweight := weight > idealRange.max
  let isUnderweight := weight < idealRange.min
  let note := "At age " ++ toString ageYears ++ ", " ++ catName ++ " is a " ++
    lifeStage ++ ". "
  note ++
    (if status = HealthStatus.thriving then
      "Weight is in a healthy range and care routine looks great!"
    else if status = HealthStatus.ok then
      if isOverweight then
        "Weight is slightly above ideal. A bit more playtime could help."
      else if isUnderweight then
        "Weight is slightly below ideal. Consider consulting your vet."
      else "Overall health is stable, but there's room for improvement."
    else if status = HealthStatus.risky then
      if isOverweight then
        "Weight is becoming a concern. Consider reducing treats and increasing activity."
      else if isUnderweight then
        "Weight is low. Please check with your vet to rule out health issues."
      else "Some health indicators suggest closer attention is needed."
    else "Health needs attention. Please schedule a vet visit soon.")

-- ============================================
-- Alert generation (page.tsx)
-- ============================================

/-- `getLifeStageRecommendation`: fixed recommendation per milestone month. -/
def getLifeStageRecommendation (ageMonths : ℕ) (careRoutine : CareRoutine) : String :=
  if ageMonths = 12 then
    "Transition to adult food if you haven't already. Keep up the play sessions!"
  else if ageMonths = 84 then
    "Consider more frequent vet checkups and monitor for any behavior changes."
  else if ageMonths = 120 then
    "Switch to senior cat food, increase vet visits to twice yearly, and watch for mobility issues."
  else if ageMonths = 180 then
    "Focus on comfort and quality of life. Consider joint supplements and easier-access litter boxes."
  else "Keep providing love, good food, and regular vet care!"

/-- Stable insertion step for the ascending-by-`ageMonths` sort. -/
def insertByAge (a : SimulationAlert) : List SimulationAlert → List SimulationAlert
  | [] => [a]
  | b :: rest =>
    if a.ageMonths ≤ b.ageMonths then a :: b :: rest else b :: insertByAge a rest

/-- JS `alerts.sort((a, b) => a.ageMonths - b.ageMonths)`: a stable ascending
sort by `ageMonths`. -/
def sortByAge (l : List SimulationAlert) : List SimulationAlert :=
  l.foldr insertByAge []

/-- The forward pass of `generateAlerts` over the point sequence, carrying the
previous status and the two has-warned flags (weight, vet).  Status-transition
alerts carry no such flag and re-fire on every qualifying transition. -/
def alertsLoop (catName : String) (careRoutine : CareRoutine) (idealRange : MinMax) :
    List SimulationPoint → HealthStatus → Bool → Bool → List SimulationAlert
  | [], _, _, _ => []
  | point :: rest, previousStatus, hasWarnedAboutWeight, hasWarnedAboutVet =>
    let riskyAlerts :=
      if point.healthStatus = HealthStatus.risky ∧ previousStatus ≠ HealthStatus.risky ∧
          previousStatus ≠ HealthStatus.unhealthy then
        [{ id := "alert-risky-" ++ toString point.ageMonths,
           ageMonths := point.ageMonths,
           severity := AlertSeverity.warning,
           message := "At age " ++ toString (point.ageMonths / 12) ++ ", " ++ catName ++
             "'s health moves to \"risky\" status.",
           recommendation := "Consider adjusting diet, increasing playtime by 10-15 minutes, and scheduling a vet checkup." }]
      else []
    let unhealthyAlerts :=
      if point.healthStatus = HealthStatus.unhealthy ∧ previousStatus ≠ HealthStatus.unhealthy then
        [{ id := "alert-unhealthy-" ++ toString point.ageMonths,
           ageMonths := point.ageMonths,
           severity := AlertSeverity.critical,
           message := "At age " ++ toString (point.ageMonths / 12) ++ ", " ++ catName ++
             " reaches \"unhealthy\" status.",
           recommendation := "Urgent: Schedule a vet visit, significantly reduce treats, and increase daily activity." }]
      else []
    let fireWeight := ¬hasWarnedAboutWeight ∧ point.weightKgEstimate > idealRange.max * 1.15
    let weightAlerts :=
      if fireWeight then
        [{ id := "alert-weight-" ++ toString point.ageMonths,
           ageMonths := point.ageMonths,
           severity := AlertSeverity.warning,
           message := catName ++ "'s weight is trending 15%+ above ideal.",
           recommendation := "Reduce treats to 1-2 per day, switch to measured portions, and add 10+ minutes of active play." }]
      else []
    let fireVet := ¬hasWarnedAboutVet ∧ point.ageMonths ≥ LIFE_STAGES.adult.endMonths ∧
      (careRoutine.vetVisitsPerYear.getD 0) < 1
    let vetAlerts :=
      if fireVet then
        [{ id := "alert-vet-" ++ toString point.ageMonths,
           ageMonths := point.ageMonths,
           severity := AlertSeverity.info,
           message := catName ++ " is entering their senior years. Regular vet visits become more important.",
           recommendation := "Consider scheduling annual or bi-annual vet checkups to catch age-related issues early." }]
      else []
    riskyAlerts ++ unhealthyAlerts ++ weightAlerts ++ vetAlerts ++
      alertsLoop catName careRoutine idealRange rest point.healthStatus
        (hasWarnedAboutWeight || decide fireWeight) (hasWarnedAboutVet || decide fireVet)

/-- The fixed life-stage milestone table of `generateAlerts`. -/
def milestoneMonths : List (ℕ × String) := [
  (12, "reaches 1 year old - no longer a kitten!"),
  (84, "turns 7 - now considered a mature adult."),
  (120, "turns 10 - entering senior years."),
  (180, "turns 15 - a wonderful achievement!")]

/-- `generateAlerts`: status-transition, weight, senior-vet and milestone
alerts over the generated points, sorted ascending by age. -/
def generateAlerts (points : List SimulationPoint) (catProfile : CatProfile)
    (careRoutine : CareRoutine) (idealRange : MinMax) : List SimulationAlert :=
  let catName := jsOrString catProfile.name "Your cat"
  let alerts := alertsLoop catName careRoutine idealRange points HealthStatus.thriving false false
  let milestoneAlerts := milestoneMonths.filterMap (fun milestone =>
    (points.find? (fun p => p.ageMonths = milestone.1)).map (fun _ =>
      { id := "milestone-" ++ toString milestone.1,
        ageMonths := (milestone.1 : ℚ),
        severity := AlertSeverity.info,
        message := catName ++ " " ++ milestone.2,
        recommendation := getLifeStageRecommendation milestone.1 careRoutine }))
  sortByAge (alerts ++ milestoneAlerts)

-- ============================================
-- Main simulation (page.tsx runSimulation / generateSummary)
-- ============================================

/-- The monthly loop of `runSimulation`, structurally recursive on the number
of remaining months (`endAgeMonths + 1 - startAgeMonths` at the top call).
`rand` gives the `Math.random()` sample for each month. -/
def simLoop (calorieProxy : ℚ) (idealRange : MinMax) (careRoutine : CareRoutine)
    (catProfile : CatProfile) (catName : String) (startAgeMonths : ℕ)
    (rand : ℕ → ℚ) : ℕ → ℕ → ℚ → List SimulationPoint
  | 0, _, _ => []
  | fuel + 1, month, prevWeight =>
    let monthlyDrift := calorieProxy * 0.02
    let noise := (rand month - 0.5) * 0.05
    let clamped := max 1.5 (prevWeight + monthlyDrift + noise)
    let currentWeight :=
      if month < 12 then min (clamped * 1.05) idealRange.max
      else if month > LIFE_STAGES.senior.endMonths then
        max (clamped * 0.998) (idealRange.min * 0.8)
      else clamped
    let status := determineHealthStatus currentWeight idealRange
      careRoutine.vetVisitsPerYear month (catProfile.knownConditions.length > 0)
    let isYearMilestone := month % 12 = 0 ∨ month = startAgeMonths
    let notes :=
      if isYearMilestone then generateNotes month currentWeight status idealRange catName
      else ""
    { ageMonths := month,
      weightKgEstimate := jsRound2 currentWeight,
      healthStatus := status,
      notes := notes } ::
      simLoop calorieProxy idealRange careRoutine catProfile catName startAgeMonths
        rand fuel (month + 1) currentWeight

/-- The status score table (thriving = 4 .. unhealthy = 1) used by both
`generateSummary` and `analyzeTrajectory`. -/
def statusScores : HealthStatus → ℚ
  | HealthStatus.thriving => 4
  | HealthStatus.ok => 3
  | HealthStatus.risky => 2
  | HealthStatus.unhealthy => 1

/-- The average status score over the trailing 24 points
(`points.slice(-24)`) computed by `generateSummary`. -/
def summaryAvgStatus (points : List SimulationPoint) : ℚ :=
  let lastPoints := points.drop (points.length - 24)
  (lastPoints.foldl (fun acc p => acc + statusScores p.healthStatus) 0) /
    (lastPoints.length : ℚ)

/-- The 4-level trajectory label of `generateSummary` (note the strict
comparisons in the source). -/
def summaryTrajectoryLabel (points : List SimulationPoint) : String :=
  let avgStatus := summaryAvgStatus points
  if avgStatus > 3.5 then "excellent"
  else if avgStatus > 2.5 then "good"
  else if avgStatus > 1.5 then "concerning"
  else "needs attention"

/-- `generateSummary`: the summary sentence pair and the (at most 5)
recommendations. -/
def generateSummary (catProfile : CatProfile) (careRoutine : CareRoutine)
    (points : List SimulationPoint) (alerts : List SimulationAlert)
    (idealRange : MinMax) : String × List String :=
  let catName := jsOrString catProfile.name "Your cat"
  let criticalAlerts := alerts.filter (fun a => a.severity = AlertSeverity.critical)
  let warningAlerts := alerts.filter (fun a => a.severity = AlertSeverity.warning)
  let trajectory := summaryTrajectoryLabel points
  let summary :=
    if trajectory = "excellent" ∨ trajectory = "good" then
      "Based on " ++ catName ++ "'s current care routine, the long-term outlook is " ++
        trajectory ++ "! " ++ "With consistent care, " ++ catName ++
        " has a great chance at a healthy, happy life."
    else
      catName ++ "'s health trajectory shows some areas for improvement. " ++
        "With a few adjustments to diet and activity, you can help " ++ catName ++ " thrive."
  let currentWeight := catProfile.weightKg.getD ((idealRange.min + idealRange.max) / 2)
  let weightRecs :=
    if currentWeight > idealRange.max then
      ["Reduce daily food portions by about 10% and limit treats to 2-3 per day.",
       "Add 10-15 minutes of active play with wand toys or laser pointers."]
    else if currentWeight < idealRange.min then
      ["Consider increasing food portions slightly and consult your vet about weight gain."]
    else []
  let playMinutes := careRoutine.playMinutesPerDay.getD 0
  let activityRecs :=
    if playMinutes < 15 then
      ["Aim for at least 15-20 minutes of interactive play daily to keep " ++ catName ++
        " active and engaged."]
    else []
  let vetVisits := careRoutine.vetVisitsPerYear.getD 0
  let vetRecs :=
    if vetVisits < 1 then
      ["Schedule at least one annual vet checkup to catch any health issues early."]
    else if catProfile.ageYears.getD 0 ≥ 10 ∧ vetVisits < 2 then
      ["For senior cats, consider twice-yearly vet visits for optimal health monitoring."]
    else []
  let dietRecs :=
    if careRoutine.foodType = some FoodType.dry then
      ["Consider adding some wet food to " ++ catName ++ "'s diet for better hydration."]
    else []
  let treats := careRoutine.treatsPerDay.getD 0
  let treatRecs :=
    if treats > 5 then
      ["Reduce treats to 2-3 per day, or switch to lower-calorie options."]
    else []
  let recommendations := weightRecs ++ activityRecs ++ vetRecs ++ dietRecs ++ treatRecs
  let recommendations :=
    if recommendations.length < 3 then
      recommendations ++
        ["Continue providing fresh water and a clean litter box for " ++ catName ++ "'s comfort."]
    else recommendations
  let recommendations :=
    if recommendations.length < 3 then
      recommendations ++
        ["Keep up the love and attention - it's the most important part of cat care!"]
    else recommendations
  (summary, recommendations.take 5)

/-- `runSimulation(config)`: monthly points from `startAgeMonths` to
`endAgeMonths` inclusive, plus alerts, summary and recommendations. -/
def runSimulation (config : SimulationConfig) (rand : ℕ → ℚ) : SimulationResult :=
  let catProfile := config.catProfile
  let careRoutine := config.careRoutine
  let catName := jsOrString catProfile.name "Your cat"
  let idealRange := getIdealWeightRange catProfile.breed
  let midIdeal := (idealRange.min + idealRange.max) / 2
  let startWeight := catProfile.weightKg.getD midIdeal
  let calorieProxy := calculateCalorieProxy careRoutine catProfile.indoorOutdoor
    startWeight midIdeal
  let points := simLoop calorieProxy idealRange careRoutine catProfile catName
    config.startAgeMonths rand (config.endAgeMonths + 1 - config.startAgeMonths)
    config.startAgeMonths startWeight
  let alerts := generateAlerts points catProfile careRoutine idealRange
  let sr := generateSummary catProfile careRoutine points alerts idealRange
  { points := points, alerts := alerts, summary := sr.1, recommendations := sr.2 }

-- ============================================
-- Enhancement layer (simulation-enhancer)
-- ============================================

/-- `extrapolateStatus`: project a status from the average score, the trend,
and the target year. -/
def extrapolateStatus (avgScore : ℚ) (trend : HealthTrend) (targetYear : ℕ) :
    HealthStatus :=
  let adjusted :=
    if trend = HealthTrend.declining then avgScore - 0.5
    else if trend = HealthTrend.improving then avgScore + 0.3
    else avgScore
  let adjustedScore := if targetYear ≥ 15 then adjusted - 0.3 else adjusted
  if adjustedScore ≥ 3.5 then HealthStatus.thriving
  else if adjustedScore ≥ 2.5 then HealthStatus.ok
  else if adjustedScore ≥ 1.5 then HealthStatus.risky
  else HealthStatus.unhealthy

/-- `analyzeTrajectory`: trend, projections, factor lists and average score
from the yearly points of a simulation. -/
def analyzeTrajectory (points : List SimulationPoint) (catProfile : CatProfile)
    (careRoutine : CareRoutine) : HealthTrajectory :=
  let yearlyPoints := points.filter (fun p => p.ageMonths % 12 = 0)
  if yearlyPoints.length < 2 then
    { trend := HealthTrend.stable,
      projectedStatusAtYear10 := HealthStatus.ok,
      projectedStatusAtYear15 := HealthStatus.ok,
      riskFactors := [],
      positiveFactors := [],
      averageHealthScore := 3 }
  else
    let avgScore := (yearlyPoints.foldl (fun sum p => sum + statusScores p.healthStatus) 0) /
      (yearlyPoints.length : ℚ)
    let midpoint := yearlyPoints.length / 2
    let firstHalf := yearlyPoints.take midpoint
    let secondHalf := yearlyPoints.drop midpoint
    let firstHalfAvg := (firstHalf.foldl (fun sum p => sum + statusScores p.healthStatus) 0) /
      (firstHalf.length : ℚ)
    let secondHalfAvg := (secondHalf.foldl (fun sum p => sum + statusScores p.healthStatus) 0) /
      (secondHalf.length : ℚ)
    let trend :=
      if secondHalfAvg > firstHalfAvg + 0.3 then HealthTrend.improving
      else if secondHalfAvg < firstHalfAvg - 0.3 then HealthTrend.declining
      else HealthTrend.stable
    let year10Point := yearlyPoints.find? (fun p => p.ageMonths = 120)
    let year15Point := yearlyPoints.find? (fun p => p.ageMonths = 180)
    let projectedStatusAtYear10 :=
      match year10Point with
      | some p => p.healthStatus
      | none => extrapolateStatus avgScore trend 10
    let projectedStatusAtYear15 :=
      match year15Point with
      | some p => p.healthStatus
      | none => extrapolateStatus avgScore trend 15
    let playMinutes := careRoutine.playMinutesPerDay.getD 0
    let vetVisits := careRoutine.vetVisitsPerYear.getD 0
    let treats := careRoutine.treatsPerDay.getD 0
    let breedProfile := findBreedProfile catProfile.breed
    let currentAge := catProfile.ageYears.getD 1
    let riskFactors :=
      (if playMinutes < 10 then ["Low activity level (less than 10 min/day)"] else []) ++
      (if vetVisits < 1 then ["No regular vet visits"] else []) ++
      (if treats > 5 then ["High treat consumption"] else []) ++
      (if careRoutine.foodType = some FoodType.dry then
        ["Dry food only (lower hydration)"] else []) ++
      (match breedProfile, catProfile.weightKg with
       | some bp, some w =>
         -- JS truthiness: weightKg = 0 is falsy and skips the weight analysis
         if w ≠ 0 ∧ w > bp.idealWeight.max then ["Current weight above ideal range"] else []
       | _, _ => []) ++
      (if catProfile.knownConditions.length > 0 then
        ["Existing health conditions: " ++ String.intercalate ", " catProfile.knownConditions]
       else []) ++
      (if currentAge ≥ 10 ∧ vetVisits < 2 then
        ["Senior cat needs more frequent vet visits"] else [])
    let positiveFactors :=
      (if ¬(playMinutes < 10) ∧ playMinutes ≥ 20 then ["Good daily activity level"] else []) ++
      (if ¬(vetVisits < 1) ∧ vetVisits ≥ 2 then ["Regular vet checkups"] else []) ++
      (if ¬(treats > 5) ∧ treats ≤ 2 then ["Controlled treat intake"] else []) ++
      (if careRoutine.foodType = some FoodType.wet ∨ careRoutine.foodType = some FoodType.mixed
       then ["Good food variety for hydration"] else []) ++
      (match breedProfile, catProfile.weightKg with
       | some bp, some w =>
         if w ≠ 0 ∧ ¬(w > bp.idealWeight.max) ∧ w ≥ bp.idealWeight.min ∧ w ≤ bp.idealWeight.max
         then ["Weight in healthy range"] else []
       | _, _ => [])
    { trend := trend,
      projectedStatusAtYear10 := projectedStatusAtYear10,
      projectedStatusAtYear15 := projectedStatusAtYear15,
      riskFactors := riskFactors,
      positiveFactors := positiveFactors,
      averageHealthScore := avgScore }

/-- The slugified condition used inside breed alert ids:
`risk.condition.replace(/\s/g, '-').toLowerCase()`. -/
def conditionSlug (condition : String) : String :=
  jsToLower (String.mk (condition.data.map (fun c => if c.isWhitespace then '-' else c)))

/-- The per-risk body of the `healthRisks.forEach` loop in
`generateBreedSpecificAlerts`: pre-warning and onset alert entries for one
health risk, when its onset is not in the past. -/
def breedRiskAlertsFor (breedName catName : String) (startAge : ℕ)
    (risk : HealthRisk) : List SimulationAlert :=
  let onsetMonth := risk.typicalOnsetYears * 12
  if onsetMonth ≥ (startAge * 12 : ℕ) then
    let preWarningMonth := max (onsetMonth - 12) ((startAge * 12 : ℕ) : ℚ)
    (if preWarningMonth ≠ onsetMonth then
      [{ id := "breed-" ++ conditionSlug risk.condition ++ "-prewarning-" ++
           toString preWarningMonth,
         ageMonths := preWarningMonth,
         severity := if risk.riskLevel = RiskLevel.high then AlertSeverity.warning
           else AlertSeverity.info,
         message := catName ++ " is approaching the typical onset age for " ++
           risk.condition ++ " in " ++ breedName ++ "s.",
         recommendation := "Start monitoring: " ++ risk.monitoringAdvice }]
     else []) ++
    [{ id := "breed-" ++ conditionSlug risk.condition ++ "-onset-" ++ toString onsetMonth,
       ageMonths := onsetMonth,
       severity := if risk.riskLevel = RiskLevel.high then AlertSeverity.critical
         else AlertSeverity.warning,
       message := breedName ++ "s typically begin showing " ++ risk.condition ++
         " around age " ++ toString risk.typicalOnsetYears ++ ".",
       recommendation := risk.monitoringAdvice }]
  else []

/-- The per-entry body of the `screeningSchedule.forEach` loop in
`generateBreedSpecificAlerts`. -/
def breedScreeningAlertsFor (catName : String) (startAge : ℕ)
    (schedule : ScreeningSchedule) : List SimulationAlert :=
  let scheduleMonth := schedule.ageYears * 12
  if scheduleMonth ≥ (startAge * 12 : ℕ) then
    [{ id := "breed-screening-" ++ toString schedule.ageYears,
       ageMonths := scheduleMonth,
       severity := AlertSeverity.info,
       message := "Year " ++ toString schedule.ageYears ++ " screening recommended for " ++
         catName ++ ".",
       recommendation := "Schedule: " ++ String.intercalate ", " schedule.screenings ++
         ". " ++ schedule.reason }]
  else []

/-- `generateBreedSpecificAlerts`: pre-warning and onset alerts for the
resolved breed's health risks plus screening-schedule alerts, sorted by age.
The `points` parameter is accepted but (as in the source) never read. -/
def generateBreedSpecificAlerts (catProfile : CatProfile) (careRoutine : CareRoutine)
    (points : List SimulationPoint) : List SimulationAlert :=
  match findBreedProfile catProfile.breed with
  | none => []
  | some breedProfile =>
    let catName := jsOrString catProfile.name "Your cat"
    let startAge := catProfile.ageYears.getD 1
    let riskAlerts := breedProfile.healthRisks.flatMap
      (breedRiskAlertsFor breedProfile.breed catName startAge)
    let screeningAlerts := breedProfile.screeningSchedule.flatMap
      (breedScreeningAlertsFor catName startAge)
    sortByAge (riskAlerts ++ screeningAlerts)

-- ============================================
-- Progressive timeline and enhancement entry points
-- ============================================

/-- `generateYearRecommendations`: the per-year entries of the progressive
timeline. -/
def generateYearRecommendations (year : ℕ) (catProfile : CatProfile)
    (careRoutine : CareRoutine) (trajectory : HealthTrajectory)
    (breedProfile : Option BreedHealthProfile) (catName : String) :
    List ProgressiveRecommendation :=
  let breedRecs :=
    match breedProfile with
    | none => []
    | some bp =>
      (match bp.screeningSchedule.find? (fun s => s.ageYears = (year : ℚ)) with
       | some screening =>
         [{ ageYears := year,
            category := RecommendationCategory.screening,
            recommendation := String.intercalate ", " screening.screenings,
            reason := screening.reason,
            priority := if year ≥ 7 then NotePriority.high else NotePriority.medium }]
       | none => []) ++
      bp.healthRisks.flatMap (fun risk =>
        if risk.typicalOnsetYears = (year : ℚ) then
          [{ ageYears := year,
             category := RecommendationCategory.monitoring,
             recommendation := "Begin " ++ risk.condition ++ " monitoring",
             reason := risk.monitoringAdvice,
             priority := if risk.riskLevel = RiskLevel.high then NotePriority.high
               else NotePriority.medium }]
        else [])
  let year1Recs :=
    if year = 1 then
      [{ ageYears := year,
         category := RecommendationCategory.screening,
         recommendation := "Complete first-year vaccinations and establish baseline bloodwork",
         reason := "Sets foundation for lifelong health monitoring",
         priority := NotePriority.high }]
    else []
  let year7Recs :=
    if year = 7 then
      [{ ageYears := year,
         category := RecommendationCategory.screening,
         recommendation := "Begin senior wellness screening",
         reason := catName ++ " enters mature adult years - early detection is key",
         priority := NotePriority.high }] ++
      (if careRoutine.vetVisitsPerYear.getD 0 < 2 then
        [{ ageYears := year,
           category := RecommendationCategory.monitoring,
           recommendation := "Increase to twice-yearly vet visits",
           reason := "Senior cats benefit from more frequent health monitoring",
           priority := NotePriority.medium }]
       else [])
    else []
  let year10Recs :=
    if year = 10 then
      [{ ageYears := year,
         category := RecommendationCategory.diet,
         recommendation := "Evaluate transition to senior cat food formula",
         reason := "Senior formulas support kidney function and joint health",
         priority := NotePriority.medium }]
    else []
  let year12Recs :=
    if year = 12 then
      [{ ageYears := year,
         category := RecommendationCategory.comfort,
         recommendation := "Consider orthopedic bedding and easier litter box access",
         reason := "Supports mobility and comfort in senior years",
         priority := NotePriority.medium }]
    else []
  let trajectoryRecs :=
    if trajectory.trend = HealthTrend.declining ∧ year ≥ catProfile.ageYears.getD 1 + 2 then
      (if trajectory.riskFactors.contains "Low activity level (less than 10 min/day)" then
        [{ ageYears := year,
           category := RecommendationCategory.activity,
           recommendation := "Gradually increase daily play to 15-20 minutes",
           reason := "Improving activity can reverse declining health trajectory",
           priority := NotePriority.high }]
       else []) ++
      (if trajectory.riskFactors.contains "No regular vet visits" then
        [{ ageYears := year,
           category := RecommendationCategory.monitoring,
           recommendation := "Schedule a comprehensive health check",
           reason := "Regular monitoring essential for declining health trajectory",
           priority := NotePriority.high }]
       else [])
    else []
  breedRecs ++ year1Recs ++ year7Recs ++ year10Recs ++ year12Recs ++ trajectoryRecs

/-- `generateProgressiveTimeline`: year-by-year recommendations from
`max(1, startAge)` through 20. -/
def generateProgressiveTimeline (catProfile : CatProfile) (careRoutine : CareRoutine)
    (trajectory : HealthTrajectory) (breedProfile : Option BreedHealthProfile) :
    List ProgressiveRecommendation :=
  let startAge := catProfile.ageYears.getD 1
  let catName := jsOrString catProfile.name "Your cat"
  (List.range' (max 1 startAge) (21 - max 1 startAge)).flatMap (fun year =>
    generateYearRecommendations year catProfile careRoutine trajectory breedProfile catName)

/-- `generateEnhancedSummary`: the base summary extended with trend and
breed-specific sentences. -/
def generateEnhancedSummary (originalSummary : String) (trajectory : HealthTrajectory)
    (breedProfile : Option BreedHealthProfile) (catProfile : CatProfile) : String :=
  let catName := jsOrString catProfile.name "Your cat"
  let summary := originalSummary ++
    (if trajectory.trend = HealthTrend.declining then
      " The health trajectory shows some decline over time - small changes now can make a big difference."
     else if trajectory.trend = HealthTrend.improving then
      " Great news - the health trajectory is improving with current care!"
     else "")
  match breedProfile with
  | some bp =>
    if bp.breed ≠ "Domestic Shorthair" then
      let avgLifespan := (bp.lifeExpectancy.min + bp.lifeExpectancy.max) / 2
      summary ++ " As a " ++ bp.breed ++ ", " ++ catName ++
        " has an average life expectancy of " ++ toString (jsRoundInt avgLifespan) ++
        " years with proper care."
    else summary
  | none => summary

/-- One pass of the `riskFactors.forEach` loop in
`generateEnhancedRecommendations` (the list grows as it is scanned). -/
def enhanceRecsStep (catName : String) (recs : List String) (risk : String) : List String :=
  let recs :=
    if jsIncludes risk "Low activity" ∧ ¬recs.any (fun r => jsIncludes r "play") then
      recs ++ ["Increase " ++ catName ++ "'s daily play sessions to at least 15 minutes."]
    else recs
  let recs :=
    if jsIncludes risk "vet visits" ∧ ¬recs.any (fun r => jsIncludes r "vet") then
      recs ++ ["Schedule regular vet checkups - at least annually, twice yearly for seniors."]
    else recs
  let recs :=
    if jsIncludes risk "treat" ∧ ¬recs.any (fun r => jsIncludes r "treat") then
      recs ++ ["Reduce daily treats to 2-3 to support healthy weight."]
    else recs
  recs

/-- `generateEnhancedRecommendations`: base recommendations extended with
trajectory- and breed-derived entries, capped at 6. -/
def generateEnhancedRecommendations (originalRecs : List String)
    (trajectory : HealthTrajectory) (breedProfile : Option BreedHealthProfile)
    (catProfile : CatProfile) (careRoutine : CareRoutine) : List String :=
  let catName := jsOrString catProfile.name "Your cat"
  let recs := trajectory.riskFactors.foldl (enhanceRecsStep catName) originalRecs
  let recs :=
    match breedProfile with
    | none => recs
    | some bp =>
      let currentAge := catProfile.ageYears.getD 1
      let upcomingRisks := bp.healthRisks.filter (fun (r : HealthRisk) =>
        r.typicalOnsetYears > (currentAge : ℚ) ∧ r.typicalOnsetYears ≤ (currentAge : ℚ) + 3)
      let recs := upcomingRisks.foldl (fun (recs : List String) (risk : HealthRisk) =>
        if risk.riskLevel = RiskLevel.high ∧ ¬recs.any (fun r => jsIncludes r risk.condition) then
          recs ++ [bp.breed ++ "s are prone to " ++ risk.condition ++ ". " ++
            risk.monitoringAdvice]
        else recs) recs
      match getAgeSpecificAdvice bp (currentAge : ℚ) with
      | some ageAdvice =>
        if ageAdvice.advice.length > 0 then
          match ageAdvice.advice.find? (fun a =>
            ¬recs.any (fun r => jsIncludes r (jsSubstrTo a 20))) with
          | some newAdvice => recs ++ [newAdvice]
          | none => recs
        else recs
      | none => recs
  recs.take 6

/-- The first-30-characters-at-equal-age deduplication of the enhancement
merge: JS `filter((alert, i, self) => i === self.findIndex(...))` keeps the
first alert for each `(ageMonths, message-prefix)` key. -/
def dedupAlerts (seen : List (ℚ × String)) : List SimulationAlert → List SimulationAlert
  | [] => []
  | a :: rest =>
    let key := (a.ageMonths, jsSubstrTo a.message 30)
    if seen.contains key then dedupAlerts seen rest
    else a :: dedupAlerts (key :: seen) rest

/-- `enhanceSimulationLocally`: breed alerts merged and deduplicated, points
annotated with breed health risks, trajectory, progressive timeline into a new
enhanced structure. -/
def enhanceSimulationLocally (result : SimulationResult) (catProfile : CatProfile)
    (careRoutine : CareRoutine) : EnhancedSimulationResult :=
  let breedProfile := findBreedProfile catProfile.breed
  let trajectory := analyzeTrajectory result.points catProfile careRoutine
  let breedAlerts := generateBreedSpecificAlerts catProfile careRoutine result.points
  let mergedAlerts := dedupAlerts [] (sortByAge (result.alerts ++ breedAlerts))
  let enhancedPoints : List EnhancedSimulationPoint := result.points.map (fun point =>
    let ageYears : ℕ := point.ageMonths / 12
    let breedHealthRisks :=
      match breedProfile with
      | some bp => getHealthRisksForAge bp (ageYears : ℚ)
      | none => []
    { toSimulationPoint := point,
      enhancedNote := none,
      breedHealthRisks := some breedHealthRisks })
  let progressiveTimeline := generateProgressiveTimeline catProfile careRoutine
    trajectory breedProfile
  let enhancedSummary := generateEnhancedSummary result.summary trajectory
    breedProfile catProfile
  let enhancedRecommendations := generateEnhancedRecommendations result.recommendations
    trajectory breedProfile catProfile careRoutine
  { points := result.points,
    alerts := mergedAlerts,
    summary := enhancedSummary,
    recommendations := enhancedRecommendations,
    enhancedPoints := enhancedPoints,
    trajectory := trajectory,
    breedProfile := breedProfile,
    progressiveTimeline := progressiveTimeline,
    isEnhanced := true }

/-- The parsed body of the milestone-note service response: `success` flag and
an optional `notes` array (JS falsy check `!data.notes`). -/
structure GPTPayload where
  success : Bool
  notes : Option (List EnhancedMilestoneNote)
deriving DecidableEq

/-- Outcome of the external milestone-note call: the fetch (or JSON parse)
threw, the response was non-OK, or an OK response with a parsed payload. -/
inductive GPTCallOutcome
  | threw
  | notOk
  | okResponse (payload : GPTPayload)
deriving DecidableEq

/-- `enhanceSimulationWithGPT`: local enhancement first, then the external
milestone-note call; every failure path returns the local result unchanged,
success merges the notes into the enhanced points. -/
def enhanceSimulationWithGPT (result : SimulationResult) (catProfile : CatProfile)
    (careRoutine : CareRoutine) (outcome : GPTCallOutcome) : EnhancedSimulationResult :=
  let localEnhanced := enhanceSimulationLocally result catProfile careRoutine
  match outcome with
  | GPTCallOutcome.threw => localEnhanced
  | GPTCallOutcome.notOk => localEnhanced
  | GPTCallOutcome.okResponse payload =>
    if ¬payload.success then localEnhanced
    else
      match payload.notes with
      | none => localEnhanced
      | some notes =>
        let enhancedPoints := localEnhanced.enhancedPoints.map (fun point =>
          let ageYears := point.ageMonths / 12
          match notes.find? (fun n => n.ageYears = ageYears) with
          | some gptNote =>
            { point with enhancedNote := some gptNote, notes := gptNote.personalizedNote }
          | none => point)
        { localEnhanced with enhancedPoints := enhancedPoints }

-- ============================================
-- Specification-side definitions and witness fixtures
-- ============================================


/-- A concrete profile for witness instantiations (an unnamed, breed-unknown
one-year-old indoor-unknown cat of 4 kg with no known conditions). -/
def testProfile : CatProfile := {
  name := none, ageYears := some 1, ageMonths := some 0, sex := none,
  neutered := none, breed := none, indoorOutdoor := none, weightKg := some 4,
  weightSource := none, bodyCondition := none, knownConditions := [] }

/-- A concrete all-defaults care routine for witness instantiations. -/
def testRoutine : CareRoutine := {
  foodType := none, foodAmountOzPerDay := none, feedingFrequency := none,
  treatsPerDay := none, playMinutesPerDay := none, vetVisitsPerYear := none,
  litterCleaningFrequency := none }

/-- A concrete empty base result for witness instantiations. -/
def testResult : SimulationResult :=
  { points := [], alerts := [], summary := "", recommendations := [] }

/-- The three failure modes of the external milestone-note call: a thrown
error, a non-OK response, or a payload without `success`/`notes`. -/
def gptCallFailed : GPTCallOutcome → Prop
  | GPTCallOutcome.threw => True
  | GPTCallOutcome.notOk => True
  | GPTCallOutcome.okResponse payload => payload.success = false ∨ payload.notes = none

/-- A base point and an enhanced point share the same core simulated values
(age, weight estimate, health status). -/
def sameCore (p : SimulationPoint) (q : EnhancedSimulationPoint) : Prop :=
  q.ageMonths = p.ageMonths ∧ q.weightKgEstimate = p.weightKgEstimate ∧
    q.healthStatus = p.healthStatus

/-- Ordering rank of a health status (unhealthy = 0 .. thriving = 3); a
strictly better status has a strictly larger rank. -/
def statusRank : HealthStatus → ℕ
  | HealthStatus.unhealthy => 0
  | HealthStatus.risky => 1
  | HealthStatus.ok => 2
  | HealthStatus.thriving => 3

/-- A concrete configuration for witness instantiations. -/
def testConfig : SimulationConfig :=
  { catProfile := testProfile, careRoutine := testRoutine,
    startAgeMonths := 12, endAgeMonths := 14 }

/-- The number of entries of a point sequence at which the status becomes
risky coming from a previous status (initially the implicit thriving) that is
neither risky nor unhealthy — the firing condition of the risky
status-transition alert. -/
def riskyTransitionCount : HealthStatus → List SimulationPoint → ℕ
  | _, [] => 0
  | previousStatus, point :: rest =>
    (if point.healthStatus = HealthStatus.risky ∧ previousStatus ≠ HealthStatus.risky ∧
        previousStatus ≠ HealthStatus.unhealthy then 1 else 0) +
      riskyTransitionCount point.healthStatus rest

/-- The number of entries of a point sequence at which the status becomes
unhealthy from any other previous status — the firing condition of the
unhealthy status-transition alert. -/
def unhealthyTransitionCount : HealthStatus → List SimulationPoint → ℕ
  | _, [] => 0
  | previousStatus, point :: rest =>
    (if point.healthStatus = HealthStatus.unhealthy ∧
        previousStatus ≠ HealthStatus.unhealthy then 1 else 0) +
      unhealthyTransitionCount point.healthStatus rest

/-- The recommendation text of the risky status-transition alert, which
appears in no other alert category. -/
def riskyRecText : String :=
  "Consider adjusting diet, increasing playtime by 10-15 minutes, and scheduling a vet checkup."

/-- The recommendation text of the unhealthy status-transition alert, which
appears in no other alert category. -/
def unhealthyRecText : String :=
  "Urgent: Schedule a vet visit, significantly reduce treats, and increase daily activity."

/-- A bare concrete simulation point for counterexample sequences. -/
def cexPoint (m : ℕ) (s : HealthStatus) : SimulationPoint :=
  { ageMonths := m, weightKgEstimate := 4, healthStatus := s, notes := "" }

/-- The trailing-24-point sequence with average status score exactly 3.5
(half thriving, half ok). -/
def cexTrailPoints : List SimulationPoint :=
  List.replicate 12 (cexPoint 0 HealthStatus.thriving) ++
    List.replicate 12 (cexPoint 0 HealthStatus.ok)

/-- The alert entries the amended C8 predicts for one health risk: none when
the onset is before the simulation start, only the onset alert when the onset
coincides exactly with the simulation start (the clamped pre-warning would
coincide with the onset and is skipped), and otherwise both the pre-warning
(one year before onset, clamped to the start) and the onset alert; the onset
alert is critical exactly when the risk level is high. -/
def expectedRiskAlerts (breedName catName : String) (startAge : ℕ)
    (risk : HealthRisk) : List SimulationAlert :=
  let onsetMonth := risk.typicalOnsetYears * 12
  let onsetAlert : SimulationAlert :=
    { id := "breed-" ++ conditionSlug risk.condition ++ "-onset-" ++ toString onsetMonth,
      ageMonths := onsetMonth,
      severity := if risk.riskLevel = RiskLevel.high then AlertSeverity.critical
        else AlertSeverity.warning,
      message := breedName ++ "s typically begin showing " ++ risk.condition ++
        " around age " ++ toString risk.typicalOnsetYears ++ ".",
      recommendation := risk.monitoringAdvice }
  if onsetMonth < ((startAge * 12 : ℕ) : ℚ) then []
  else if onsetMonth = ((startAge * 12 : ℕ) : ℚ) then [onsetAlert]
  else
    let preWarningMonth := max (onsetMonth - 12) ((startAge * 12 : ℕ) : ℚ)
    { id := "breed-" ++ conditionSlug risk.condition ++ "-prewarning-" ++
        toString preWarningMonth,
      ageMonths := preWarningMonth,
      severity := if risk.riskLevel = RiskLevel.high then AlertSeverity.warning
        else AlertSeverity.info,
      message := catName ++ " is approaching the typical onset age for " ++
        risk.condition ++ " in " ++ breedName ++ "s.",
      recommendation := "Start monitoring: " ++ risk.monitoringAdvice } :: [onsetAlert]

/-- The counterexample profile for C8: a three-year-old cat of unknown breed,
resolved to Domestic Shorthair, whose Obesity risk has its typical onset
(age 3 = month 36) exactly at the simulation start. -/
def cexProfileC8 : CatProfile := { testProfile with ageYears := some 3 }

-- ============================================
-- Theorems
-- ============================================

/-- C5: whenever the external milestone-note call fails in any of the three
specified ways (thrown error, non-OK response, payload missing
`success`/`notes`), `enhanceSimulationWithGPT` returns exactly the result of
`enhanceSimulationLocally` on the same inputs. -/
theorem enhanceSimulationWithGPT_fallback (result : SimulationResult)
    (catProfile : CatProfile) (careRoutine : CareRoutine) (outcome : GPTCallOutcome)
    (h : gptCallFailed outcome) :
    enhanceSimulationWithGPT result catProfile careRoutine outcome =
      enhanceSimulationLocally result catProfile careRoutine := by
  cases outcome with
  | threw => rfl
  | notOk => rfl
  | okResponse payload =>
    rcases h with h | h
    · simp [enhanceSimulationWithGPT, h]
    · cases hs : payload.success with
      | false => simp [enhanceSimulationWithGPT, hs]
      | true => simp [enhanceSimulationWithGPT, hs, h]

/-- Witness for C5 at a concrete failing outcome. -/
theorem enhanceSimulationWithGPT_fallback_witness :
    gptCallFailed GPTCallOutcome.threw ∧
      enhanceSimulationWithGPT testResult testProfile testRoutine GPTCallOutcome.threw =
        enhanceSimulationLocally testResult testProfile testRoutine :=
  ⟨trivial, enhanceSimulationWithGPT_fallback testResult testProfile testRoutine
    GPTCallOutcome.threw trivial⟩

/-- C10: with fewer than two yearly points, `analyzeTrajectory` returns the
fixed default trajectory (stable, ok at years 10 and 15, empty factor lists,
average score 3), independently of the profile and routine. -/
theorem analyzeTrajectory_default (points : List SimulationPoint)
    (catProfile : CatProfile) (careRoutine : CareRoutine)
    (h : (points.filter (fun p => p.ageMonths % 12 = 0)).length < 2) :
    analyzeTrajectory points catProfile careRoutine =
      { trend := HealthTrend.stable,
        projectedStatusAtYear10 := HealthStatus.ok,
        projectedStatusAtYear15 := HealthStatus.ok,
        riskFactors := [],
        positiveFactors := [],
        averageHealthScore := 3 } := by
  unfold analyzeTrajectory
  rw [if_pos h]

/-- Witness for C10 at the empty point list. -/
theorem analyzeTrajectory_default_witness :
    ((([] : List SimulationPoint).filter (fun p => p.ageMonths % 12 = 0)).length < 2) ∧
      analyzeTrajectory [] testProfile testRoutine =
        { trend := HealthTrend.stable,
          projectedStatusAtYear10 := HealthStatus.ok,
          projectedStatusAtYear15 := HealthStatus.ok,
          riskFactors := [],
          positiveFactors := [],
          averageHealthScore := 3 } :=
  ⟨by decide, analyzeTrajectory_default [] testProfile testRoutine (by decide)⟩

theorem forall₂_sameCore_map (l : List SimulationPoint)
    (f : SimulationPoint → EnhancedSimulationPoint) (hf : ∀ p, sameCore p (f p)) :
    List.Forall₂ sameCore l (l.map f) := by
  induction l with
  | nil => exact List.Forall₂.nil
  | cons p rest ih => exact List.Forall₂.cons (hf p) ih

theorem forall₂_sameCore_map_of_preserving (l : List SimulationPoint)
    (m : List EnhancedSimulationPoint) (g : EnhancedSimulationPoint → EnhancedSimulationPoint)
    (hg : ∀ q, (g q).ageMonths = q.ageMonths ∧ (g q).weightKgEstimate = q.weightKgEstimate ∧
      (g q).healthStatus = q.healthStatus)
    (h : List.Forall₂ sameCore l m) : List.Forall₂ sameCore l (m.map g) := by
  induction h with
  | nil => exact List.Forall₂.nil
  | @cons p q l' m' hpq _ ih =>
    refine List.Forall₂.cons ?_ ih
    obtain ⟨h1, h2, h3⟩ := hpq
    obtain ⟨g1, g2, g3⟩ := hg q
    exact ⟨g1.trans h1, g2.trans h2, g3.trans h3⟩

/-- C9: enhancement never alters the underlying simulated values — for every
base result, profile, routine and external-call outcome, the enhanced points
of `enhanceSimulationLocally` and of `enhanceSimulationWithGPT` correspond
one-to-one with the base points with identical `ageMonths`,
`weightKgEstimate` and `healthStatus`; only notes and added fields differ. -/
theorem enhancement_preserves_core (result : SimulationResult) (catProfile : CatProfile)
    (careRoutine : CareRoutine) (outcome : GPTCallOutcome) :
    List.Forall₂ sameCore result.points
      (enhanceSimulationLocally result catProfile careRoutine).enhancedPoints ∧
    List.Forall₂ sameCore result.points
      (enhanceSimulationWithGPT result catProfile careRoutine outcome).enhancedPoints := by
  have hlocal : List.Forall₂ sameCore result.points
      (enhanceSimulationLocally result catProfile careRoutine).enhancedPoints := by
    show List.Forall₂ sameCore result.points (result.points.map _)
    exact forall₂_sameCore_map _ _ (fun p => ⟨rfl, rfl, rfl⟩)
  refine ⟨hlocal, ?_⟩
  cases outcome with
  | threw => exact hlocal
  | notOk => exact hlocal
  | okResponse payload =>
    by_cases hs : payload.success = true
    · cases hn : payload.notes with
      | none =>
        simp only [enhanceSimulationWithGPT, hs, hn, not_true, if_false]
        exact hlocal
      | some notes =>
        simp only [enhanceSimulationWithGPT, hs, hn, not_true, if_false]
        refine forall₂_sameCore_map_of_preserving _ _ _ (fun q => ?_) hlocal
        cases hfind : notes.find? (fun n => n.ageYears = q.ageMonths / 12) with
        | none => simp [hfind]
        | some gptNote => simp [hfind]
    · simp only [Bool.not_eq_true] at hs
      simp only [enhanceSimulationWithGPT, hs, Bool.false_eq_true, not_false_eq_true,
        if_true]
      exact hlocal

/-- C4: `determineHealthStatus` first classifies by weight deviation and then
applies only downgrading adjustments, so the returned status is never
strictly better than the weight-only classification, for every input. -/
theorem determineHealthStatus_le_weightOnly (weight : ℚ) (idealRange : MinMax)
    (vetVisitsPerYear : Option ℚ) (ageMonths : ℕ) (hasKnownConditions : Bool) :
    statusRank (determineHealthStatus weight idealRange vetVisitsPerYear ageMonths
        hasKnownConditions) ≤
      statusRank (weightOnlyStatus weight idealRange) := by
  unfold determineHealthStatus
  generalize weightOnlyStatus weight idealRange = s0
  by_cases c1 : vetVisitsPerYear.getD 0 = 0 ∧ ageMonths > 24 <;>
    by_cases c2 : ageMonths > LIFE_STAGES.senior.endMonths <;>
    by_cases c3 : vetVisitsPerYear.getD 0 < 1 <;>
    by_cases c4 : hasKnownConditions = true <;>
    by_cases c5 : vetVisitsPerYear.getD 0 < 2 <;>
    cases s0 <;>
    simp [c1, c2, c3, c4, c5, statusRank]

theorem simLoop_map_ageMonths (calorieProxy : ℚ) (idealRange : MinMax)
    (careRoutine : CareRoutine) (catProfile : CatProfile) (catName : String)
    (startAgeMonths : ℕ) (rand : ℕ → ℚ) :
    ∀ (fuel month : ℕ) (w : ℚ),
      (simLoop calorieProxy idealRange careRoutine catProfile catName startAgeMonths
          rand fuel month w).map (fun p => p.ageMonths) = List.range' month fuel := by
  intro fuel
  induction fuel with
  | zero => intro month w; rfl
  | succ n ih =>
    intro month w
    rw [List.range'_succ]
    simp only [simLoop, List.map_cons]
    exact congrArg (month :: ·) (ih (month + 1) _)

/-- C1: for every profile, routine and `startAgeMonths ≤ endAgeMonths`,
`runSimulation` returns exactly `endAgeMonths - startAgeMonths + 1` points,
whose `ageMonths` run through each integer month from `startAgeMonths` to
`endAgeMonths` inclusive, increasing by exactly 1 (the age list is the
arithmetic range), for every random stream. -/
theorem runSimulation_points_months (config : SimulationConfig) (rand : ℕ → ℚ)
    (h : config.startAgeMonths ≤ config.endAgeMonths) :
    (runSimulation config rand).points.map (fun p => p.ageMonths) =
      List.range' config.startAgeMonths (config.endAgeMonths - config.startAgeMonths + 1) ∧
    (runSimulation config rand).points.length =
      config.endAgeMonths - config.startAgeMonths + 1 := by
  have hfuel : config.endAgeMonths + 1 - config.startAgeMonths =
      config.endAgeMonths - config.startAgeMonths + 1 := by omega
  have hmap : (runSimulation config rand).points.map (fun p => p.ageMonths) =
      List.range' config.startAgeMonths
        (config.endAgeMonths - config.startAgeMonths + 1) := by
    show (simLoop _ _ _ _ _ _ _ _ _ _).map (fun p => p.ageMonths) = _
    rw [simLoop_map_ageMonths, hfuel]
  refine ⟨hmap, ?_⟩
  have := congrArg List.length hmap
  rwa [List.length_map, List.length_range'] at this

/-- Witness for C1 at a concrete configuration (months 12 through 14). -/
theorem runSimulation_points_months_witness :
    testConfig.startAgeMonths ≤ testConfig.endAgeMonths ∧
      ((runSimulation testConfig (fun _ => 0)).points.map (fun p => p.ageMonths) =
        List.range' testConfig.startAgeMonths
          (testConfig.endAgeMonths - testConfig.startAgeMonths + 1) ∧
      (runSimulation testConfig (fun _ => 0)).points.length =
        testConfig.endAgeMonths - testConfig.startAgeMonths + 1) :=
  ⟨by decide, runSimulation_points_months testConfig (fun _ => 0) (by decide)⟩

theorem jsRound2_ge (w : ℚ) (h : (1497/1000 : ℚ) ≤ w) : (1.5 : ℚ) ≤ jsRound2 w := by
  unfold jsRound2
  have h1 : (150 : ℤ) ≤ ⌊w * 100 + 1/2⌋ := by
    rw [Int.le_floor]; push_cast; linarith
  have h2 : (150 : ℚ) ≤ ((⌊w * 100 + 1/2⌋ : ℤ) : ℚ) := by exact_mod_cast h1
  linarith

theorem FALLBACK_WEIGHT_RANGES_max_ge (s : String) :
    (1.5 : ℚ) ≤ (FALLBACK_WEIGHT_RANGES s).max := by
  unfold FALLBACK_WEIGHT_RANGES
  split_ifs <;> norm_num

theorem getIdealWeightRangeFallback_max_ge (breed : Option String) :
    (1.5 : ℚ) ≤ (getIdealWeightRangeFallback breed).max := by
  cases breed with
  | none => exact FALLBACK_WEIGHT_RANGES_max_ge _
  | some b =>
    show (1.5 : ℚ) ≤ (if b = "" then FALLBACK_WEIGHT_RANGES "default"
      else FALLBACK_WEIGHT_RANGES
        ((FALLBACK_BREED_SIZES.lookup (jsTrim (jsToLower b))).getD "default")).max
    split_ifs <;> exact FALLBACK_WEIGHT_RANGES_max_ge _

theorem BREED_HEALTH_DATABASE_max_ge :
    ∀ bp ∈ BREED_HEALTH_DATABASE, (1.5 : ℚ) ≤ bp.idealWeight.max :=
  of_decide_eq_true (by with_unfolding_all rfl)

theorem domesticShorthair_mem_database : domesticShorthair ∈ BREED_HEALTH_DATABASE := by
  unfold BREED_HEALTH_DATABASE
  simp

theorem findBreedProfile_mem_database (breed : Option String) (bp : BreedHealthProfile)
    (h : findBreedProfile breed = some bp) : bp ∈ BREED_HEALTH_DATABASE := by
  cases breed with
  | none =>
    simp only [findBreedProfile, Option.some.injEq] at h
    rw [← h]; exact domesticShorthair_mem_database
  | some s =>
    by_cases hs : s = ""
    · simp only [findBreedProfile, hs, if_true, Option.some.injEq, if_pos] at h
      rw [← h]; exact domesticShorthair_mem_database
    · simp only [findBreedProfile, hs, if_false, Option.some.injEq, if_neg,
        not_false_eq_true] at h
      cases hf : BREED_HEALTH_DATABASE.find? (breedNameMatches (jsTrim (jsToLower s))) with
      | none => rw [hf] at h; simp at h; rw [← h]; exact domesticShorthair_mem_database
      | some x =>
        rw [hf] at h; simp at h; rw [← h]
        exact List.mem_of_find?_eq_some hf

theorem getIdealWeightRange_max_ge (breed : Option String) :
    (1.5 : ℚ) ≤ (getIdealWeightRange breed).max := by
  unfold getIdealWeightRange
  cases hfb : findBreedProfile breed with
  | none => exact getIdealWeightRangeFallback_max_ge breed
  | some bp =>
    show (1.5 : ℚ) ≤ (if bp.breed ≠ "Domestic Shorthair" then bp.idealWeight
      else getIdealWeightRangeFallback breed).max
    split_ifs with hne
    · exact BREED_HEALTH_DATABASE_max_ge bp (findBreedProfile_mem_database breed bp hfb)
    · exact getIdealWeightRangeFallback_max_ge breed

theorem simLoop_weight_ge (calorieProxy : ℚ) (idealRange : MinMax)
    (careRoutine : CareRoutine) (catProfile : CatProfile) (catName : String)
    (startAgeMonths : ℕ) (rand : ℕ → ℚ) (hmax : (1.5 : ℚ) ≤ idealRange.max) :
    ∀ (fuel month : ℕ) (w : ℚ),
      ∀ p ∈ simLoop calorieProxy idealRange careRoutine catProfile catName
        startAgeMonths rand fuel month w, (1.5 : ℚ) ≤ p.weightKgEstimate := by
  intro fuel
  induction fuel with
  | zero => intro month w p hp; simp [simLoop] at hp
  | succ n ih =>
    intro month w p hp
    simp only [simLoop, List.mem_cons] at hp
    rcases hp with rfl | hp
    · show (1.5 : ℚ) ≤ jsRound2 _
      apply jsRound2_ge
      have hc : (1.5 : ℚ) ≤ max 1.5 (w + calorieProxy * 0.02 + (rand month - 0.5) * 0.05) :=
        le_max_left _ _
      set clamped := max 1.5 (w + calorieProxy * 0.02 + (rand month - 0.5) * 0.05)
        with hcl
      split_ifs with h1 h2
      · refine le_min ?_ ?_
        · nlinarith
        · linarith
      · refine le_trans ?_ (le_max_left _ _)
        nlinarith
      · linarith
    · exact ih (month + 1) _ p hp

/-- C2: every point returned by `runSimulation` has a weight estimate of at
least 1.5 kg, for every profile, routine, age range and random stream: the
floor survives the juvenile clamp toward `idealRange.max`, the senior decline
toward `0.8 * idealRange.min`, and the rounding to 2 decimals. -/
theorem runSimulation_weight_floor (config : SimulationConfig) (rand : ℕ → ℚ)
    (i : ℕ) (h : i < (runSimulation config rand).points.length) :
    (1.5 : ℚ) ≤ ((runSimulation config rand).points.get ⟨i, h⟩).weightKgEstimate := by
  exact simLoop_weight_ge _ _ _ _ _ _ _
    (getIdealWeightRange_max_ge config.catProfile.breed) _ _ _ _
    (List.get_mem _ i h)

/-- Witness for C2 at the first point of a concrete simulation. -/
theorem runSimulation_weight_floor_witness :
    0 < (runSimulation testConfig (fun _ => 0)).points.length ∧
      (1.5 : ℚ) ≤ ((runSimulation testConfig (fun _ => 0)).points.get
        ⟨0, by decide⟩).weightKgEstimate :=
  ⟨by decide, runSimulation_weight_floor testConfig (fun _ => 0) 0 (by decide)⟩

theorem insertByAge_perm (a : SimulationAlert) (l : List SimulationAlert) :
    (insertByAge a l).Perm (a :: l) := by
  induction l with
  | nil => exact List.Perm.refl _
  | cons b t ih =>
    unfold insertByAge
    split_ifs
    · exact List.Perm.refl _
    · exact (List.Perm.cons b ih).trans (List.Perm.swap a b t)

theorem sortByAge_perm (l : List SimulationAlert) : (sortByAge l).Perm l := by
  induction l with
  | nil => exact List.Perm.refl _
  | cons a t ih =>
    show (insertByAge a (sortByAge t)).Perm (a :: t)
    exact (insertByAge_perm a (sortByAge t)).trans (List.Perm.cons a ih)

theorem alertsLoop_countP_risky (catName : String) (careRoutine : CareRoutine)
    (idealRange : MinMax) : ∀ (pts : List SimulationPoint) (prev : HealthStatus)
    (hw hv : Bool),
    (alertsLoop catName careRoutine idealRange pts prev hw hv).countP
        (fun a => a.recommendation = riskyRecText) = riskyTransitionCount prev pts := by
  intro pts
  induction pts with
  | nil => intro prev hw hv; rfl
  | cons point rest ih =>
    intro prev hw hv
    simp only [alertsLoop, List.countP_append, ih, riskyTransitionCount]
    split_ifs <;> simp [riskyRecText, List.countP_cons]

theorem alertsLoop_countP_unhealthy (catName : String) (careRoutine : CareRoutine)
    (idealRange : MinMax) : ∀ (pts : List SimulationPoint) (prev : HealthStatus)
    (hw hv : Bool),
    (alertsLoop catName careRoutine idealRange pts prev hw hv).countP
        (fun a => a.recommendation = unhealthyRecText) = unhealthyTransitionCount prev pts := by
  intro pts
  induction pts with
  | nil => intro prev hw hv; rfl
  | cons point rest ih =>
    intro prev hw hv
    simp only [alertsLoop, List.countP_append, ih, unhealthyTransitionCount]
    split_ifs <;> simp [unhealthyRecText, List.countP_cons]

theorem milestone_countP_zero (points : List SimulationPoint) (catName : String)
    (careRoutine : CareRoutine) (pred : String → Bool)
    (hpred : ∀ m ∈ milestoneMonths, pred (getLifeStageRecommendation m.1 careRoutine) = false) :
    (milestoneMonths.filterMap (fun milestone =>
      (points.find? (fun p => p.ageMonths = milestone.1)).map (fun _ =>
        ({ id := "milestone-" ++ toString milestone.1,
           ageMonths := (milestone.1 : ℚ),
           severity := AlertSeverity.info,
           message := catName ++ " " ++ milestone.2,
           recommendation := getLifeStageRecommendation milestone.1 careRoutine } :
          SimulationAlert)))).countP (fun a => pred a.recommendation) = 0 := by
  apply List.countP_eq_zero.mpr
  intro a ha
  obtain ⟨m, hm, hfm⟩ := List.mem_filterMap.mp ha
  obtain ⟨pt, hpt, heq⟩ := Option.map_eq_some'.mp hfm
  have := hpred m hm
  rw [← heq]
  simp [this]

/-- C3 (amended): in a single run over any point sequence, `generateAlerts`
emits one risky status-transition alert at every point whose status is risky
while the previous status (initially thriving) is neither risky nor
unhealthy, and one unhealthy alert at every point whose status is unhealthy
while the previous status differs — re-entries into the same status after
recovery fire again; there is no has-warned flag for these two categories. -/
theorem generateAlerts_statusTransition_counts (points : List SimulationPoint)
    (catProfile : CatProfile) (careRoutine : CareRoutine) (idealRange : MinMax) :
    ((generateAlerts points catProfile careRoutine idealRange).countP
        (fun a => a.recommendation = riskyRecText) =
      riskyTransitionCount HealthStatus.thriving points) ∧
    ((generateAlerts points catProfile careRoutine idealRange).countP
        (fun a => a.recommendation = unhealthyRecText) =
      unhealthyTransitionCount HealthStatus.thriving points) := by
  unfold generateAlerts
  constructor
  · rw [((sortByAge_perm _).countP_eq _), List.countP_append,
      alertsLoop_countP_risky,
      milestone_countP_zero points _ careRoutine (fun s => s = riskyRecText)]
    · omega
    · intro m hm
      fin_cases hm <;> simp [getLifeStageRecommendation, riskyRecText]
  · rw [((sortByAge_perm _).countP_eq _), List.countP_append,
      alertsLoop_countP_unhealthy,
      milestone_countP_zero points _ careRoutine (fun s => s = unhealthyRecText)]
    · omega
    · intro m hm
      fin_cases hm <;> simp [getLifeStageRecommendation, unhealthyRecText]

/-- C3 counterexample: over the sequence risky, thriving, risky the risky
status-transition alert fires twice in one run (the claim says at most once
per run and no re-fire after recovery). -/
theorem generateAlerts_risky_refires :
    ((generateAlerts [cexPoint 1 HealthStatus.risky, cexPoint 2 HealthStatus.thriving,
        cexPoint 3 HealthStatus.risky] testProfile testRoutine
        { min := 3.5, max := 5.5 }).countP
      (fun a => a.recommendation = riskyRecText)) = 2 :=
  of_decide_eq_true (by with_unfolding_all rfl)

/-- C6: `findBreedProfile` never fails — null, empty and unmatched breed
names resolve to the generic Domestic Shorthair profile; in particular the
unknown breed "Xyzzycat" resolves to Domestic Shorthair and its ideal weight
range is `{min := 3.5, max := 5.5}`. -/
theorem findBreedProfile_total :
    (∀ bn, (findBreedProfile bn).isSome = true) ∧
    findBreedProfile none = some domesticShorthair ∧
    findBreedProfile (some "") = some domesticShorthair ∧
    (∀ s, s ≠ "" →
      BREED_HEALTH_DATABASE.find? (breedNameMatches (jsTrim (jsToLower s))) = none →
      findBreedProfile (some s) = some domesticShorthair) ∧
    findBreedProfile (some "Xyzzycat") = some domesticShorthair ∧
    getIdealWeightRange (some "Xyzzycat") = { min := 3.5, max := 5.5 } := by
  refine ⟨?_, rfl, rfl, ?_, ?_, ?_⟩
  · intro bn
    cases bn with
    | none => rfl
    | some s => by_cases hs : s = "" <;> simp [findBreedProfile, hs]
  · intro s hs hfind
    simp [findBreedProfile, hs, hfind]
  · with_unfolding_all rfl
  · with_unfolding_all rfl

/-- Witness for C6, instantiating the unmatched-name clause at "Xyzzycat". -/
theorem findBreedProfile_total_witness :
    ("Xyzzycat" ≠ "") ∧
    BREED_HEALTH_DATABASE.find? (breedNameMatches (jsTrim (jsToLower "Xyzzycat"))) = none ∧
    findBreedProfile (some "Xyzzycat") = some domesticShorthair :=
  ⟨by decide, by with_unfolding_all rfl,
    findBreedProfile_total.2.2.2.1 "Xyzzycat" (by decide) (by with_unfolding_all rfl)⟩

/-- C7 (amended): the trajectory label of `generateSummary` over the trailing
24 points uses strict thresholds — "excellent" exactly when the average
status score exceeds 3.5, "good" when it is in (2.5, 3.5], "concerning" when
in (1.5, 2.5], and "needs attention" when at most 1.5 (a boundary average
falls to the lower label). -/
theorem summaryTrajectoryLabel_spec (points : List SimulationPoint) :
    (summaryTrajectoryLabel points = "excellent" ↔ summaryAvgStatus points > 3.5) ∧
    (summaryTrajectoryLabel points = "good" ↔
      (summaryAvgStatus points ≤ 3.5 ∧ summaryAvgStatus points > 2.5)) ∧
    (summaryTrajectoryLabel points = "concerning" ↔
      (summaryAvgStatus points ≤ 2.5 ∧ summaryAvgStatus points > 1.5)) ∧
    (summaryTrajectoryLabel points = "needs attention" ↔
      summaryAvgStatus points ≤ 1.5) := by
  simp only [summaryTrajectoryLabel]
  split_ifs with h1 h2 h3 <;>
    refine ⟨?_, ?_, ?_, ?_⟩ <;>
    simp_all <;>
    intros <;>
    linarith

/-- C7 counterexample: at an average status score of exactly 3.5 the label is
"good", not "excellent" — the claim's inclusive threshold ("excellent
whenever the average is ≥ 3.5") does not hold on the code's strict
comparison. -/
theorem summaryTrajectoryLabel_boundary :
    summaryAvgStatus cexTrailPoints = 7 / 2 ∧
    (3.5 : ℚ) ≤ summaryAvgStatus cexTrailPoints ∧
    summaryTrajectoryLabel cexTrailPoints = "good" ∧
    summaryTrajectoryLabel cexTrailPoints ≠ "excellent" :=
  of_decide_eq_true (by with_unfolding_all rfl)

theorem breedRiskAlertsFor_eq_expected (breedName catName : String) (startAge : ℕ)
    (risk : HealthRisk) :
    breedRiskAlertsFor breedName catName startAge risk =
      expectedRiskAlerts breedName catName startAge risk := by
  simp only [breedRiskAlertsFor, expectedRiskAlerts]
  by_cases hin : risk.typicalOnsetYears * 12 ≥ ((startAge * 12 : ℕ) : ℚ)
  · rw [if_pos hin, if_neg (not_lt.mpr hin)]
    by_cases heq : risk.typicalOnsetYears * 12 = ((startAge * 12 : ℕ) : ℚ)
    · rw [if_pos heq]
      have hmaxeq : max (risk.typicalOnsetYears * 12 - 12) ((startAge * 12 : ℕ) : ℚ) =
          risk.typicalOnsetYears * 12 := by
        rw [max_eq_right (by linarith), heq]
      rw [if_neg (not_ne_iff.mpr hmaxeq)]
      simp
    · rw [if_neg heq]
      have hlt : ((startAge * 12 : ℕ) : ℚ) < risk.typicalOnsetYears * 12 :=
        lt_of_le_of_ne hin (Ne.symm heq)
      have hmaxlt : max (risk.typicalOnsetYears * 12 - 12) ((startAge * 12 : ℕ) : ℚ) <
          risk.typicalOnsetYears * 12 := max_lt (by linarith) hlt
      rw [if_pos (ne_of_lt hmaxlt)]
      simp
  · rw [if_neg hin, if_pos (lt_of_not_ge hin)]

/-- C8 (amended): for every resolved breed profile, the breed-specific alert
list is exactly (up to the final sort) the per-risk expected entries — two
entries for an in-range risk except when the onset coincides with the
simulation start, where only the onset alert is emitted — together with the
in-range screening alerts. -/
theorem generateBreedSpecificAlerts_spec (catProfile : CatProfile)
    (careRoutine : CareRoutine) (points : List SimulationPoint)
    (bp : BreedHealthProfile) (h : findBreedProfile catProfile.breed = some bp) :
    (generateBreedSpecificAlerts catProfile careRoutine points).Perm
      (bp.healthRisks.flatMap
        (expectedRiskAlerts bp.breed (jsOrString catProfile.name "Your cat")
          (catProfile.ageYears.getD 1)) ++
       bp.screeningSchedule.flatMap
        (breedScreeningAlertsFor (jsOrString catProfile.name "Your cat")
          (catProfile.ageYears.getD 1))) := by
  simp only [generateBreedSpecificAlerts, h]
  have hfun : breedRiskAlertsFor bp.breed (jsOrString catProfile.name "Your cat")
      (catProfile.ageYears.getD 1) =
      expectedRiskAlerts bp.breed (jsOrString catProfile.name "Your cat")
        (catProfile.ageYears.getD 1) :=
    funext (breedRiskAlertsFor_eq_expected _ _ _)
  rw [hfun]
  exact sortByAge_perm _

/-- Witness for C8 (amended) at a concrete profile resolving to Domestic
Shorthair. -/
theorem generateBreedSpecificAlerts_spec_witness :
    findBreedProfile testProfile.breed = some domesticShorthair ∧
      (generateBreedSpecificAlerts testProfile testRoutine []).Perm
        (domesticShorthair.healthRisks.flatMap
          (expectedRiskAlerts domesticShorthair.breed
            (jsOrString testProfile.name "Your cat") (testProfile.ageYears.getD 1)) ++
         domesticShorthair.screeningSchedule.flatMap
          (breedScreeningAlertsFor (jsOrString testProfile.name "Your cat")
            (testProfile.ageYears.getD 1))) :=
  ⟨rfl, generateBreedSpecificAlerts_spec testProfile testRoutine [] domesticShorthair rfl⟩

/-- C8 counterexample: the Domestic Shorthair Obesity risk (onset 3 years) is
within the simulated range of a cat starting at age 3 (36 months), yet the
enhancement layer produces only one alert for it — the onset alert — not the
two entries (pre-warning plus onset) the claim asserts. -/
theorem generateBreedSpecificAlerts_onset_at_start :
    (findBreedProfile cexProfileC8.breed = some domesticShorthair) ∧
    ((domesticShorthair.healthRisks.filter (fun r => r.condition = "Obesity")).map
      (fun r => r.typicalOnsetYears) = [3]) ∧
    (cexProfileC8.ageYears.getD 1 * 12 = 36) ∧
    ((generateBreedSpecificAlerts cexProfileC8 testRoutine []).filter
      (fun a => jsIncludes a.id "obesity")).length = 1 :=
  of_decide_eq_true (by with_unfolding_all rfl)

end CatLife
